import Mathlib

/-!
OSIFieldChecker: a shallow embedding of `src/OSIFieldChecker.cpp`.

The component is an FMI 2.0 co-simulation unit that receives a serialized
`osi3::SensorData` message through an address/size handoff in its integer
variables, checks the presence of configured fields of the first moving
object, and forwards the message through one of two owned output buffers.

Modelling conventions

* `fmi2Integer` and `fmi2Boolean` are C `int`; values are `Int`, and the places
  where the source converts between widths (`toInt32`, `toUInt32`) are explicit.
* `fmi2Real` is an IEEE double; only its comparison with `0.5` is used by the
  code, so a double is a rational, an infinity or a NaN with the IEEE ordering.
* `std::set<std::string>` is a `Finset String`; iteration visits the elements in
  increasing order (`Finset.sort`).
* The fixed-size member arrays are lists; a well-formed state has lists whose
  lengths are the capacities of the configuration.
* The header `OSIFieldChecker.h` (index constants, capacities, the inline
  setters) and the protobuf library are not part of the sources: the constants
  are the fields of `Config`, the library calls are the fields of `Env`.
* Logging (`NormalLog`, `FmiVerboseLog`) and the per-step lines on `std::cout`
  have no effect on the state and are left out; the report of `Terminate` is
  returned as a value.
-/

namespace OSIFieldChecker

/-! ## Scalar types -/

/-- Status codes of the FMI 2.0 interface (`fmi2Status`). -/
inductive fmi2Status where
  | fmi2OK
  | fmi2Warning
  | fmi2Discard
  | fmi2Error
  | fmi2Fatal
  | fmi2Pending
  deriving DecidableEq, Repr

/-- An IEEE double as far as comparisons are concerned. -/
inductive Double where
  | finite (q : ℚ)
  | posInf
  | negInf
  | nan
  deriving DecidableEq

/-- The C++ comparison `a > b` on doubles: false as soon as one side is a NaN. -/
def Double.gt : Double → Double → Bool
  | .nan, _ => false
  | _, .nan => false
  | .finite a, .finite b => decide (b < a)
  | .finite _, .posInf => false
  | .finite _, .negInf => true
  | .posInf, .posInf => false
  | .posInf, _ => true
  | .negInf, _ => false

/-- The FMI real type (`typedef double fmi2Real`). -/
abbrev fmi2Real := Double

/-- The FMI integer type (`typedef int fmi2Integer`). -/
abbrev fmi2Integer := Int

/-- The FMI boolean type (`typedef int fmi2Boolean`). -/
abbrev fmi2Boolean := Int

/-- The constant `fmi2False`. -/
def fmi2False : fmi2Boolean := 0

/-- The constant `fmi2True`. -/
def fmi2True : fmi2Boolean := 1

/-- The FMI value reference type (`typedef unsigned int fmi2ValueReference`). -/
abbrev fmi2ValueReference := Nat

/-- The bit pattern of a 32-bit `int`, read as an unsigned number. -/
def toUInt32 (i : Int) : Nat := (i % 2 ^ 32).toNat

/-- The 32-bit `int` whose bit pattern is the low 32 bits of `u`. -/
def toInt32 (u : Nat) : Int :=
  if u % 2 ^ 32 < 2 ^ 31 then ((u % 2 ^ 32 : Nat) : Int) else ((u % 2 ^ 32 : Nat) : Int) - 2 ^ 32

/-! ## The structured message (`osi3::SensorData`, as far as the code reads it) -/

/-- Payload of a three-component sub-record (`Vector3d`, `Dimension3d`, `Orientation3d`). -/
structure Triple where
  a : Double
  b : Double
  c : Double
  deriving DecidableEq

/-- Payload of a polygon vertex (`Vector2d`). -/
structure Vector2d where
  x : Double
  y : Double
  deriving DecidableEq

/-- The record `osi3::BaseMoving`: every sub-record is optional, the polygon is repeated. -/
structure BaseMoving where
  dimension : Option Triple
  position : Option Triple
  orientation : Option Triple
  velocity : Option Triple
  acceleration : Option Triple
  orientation_rate : Option Triple
  orientation_acceleration : Option Triple
  base_polygon : List Vector2d
  deriving DecidableEq

/-- The default instance that `base()` returns when no base record is set. -/
def BaseMoving.default_instance : BaseMoving :=
  { dimension := none, position := none, orientation := none, velocity := none,
    acceleration := none, orientation_rate := none, orientation_acceleration := none,
    base_polygon := [] }

/-- The record `osi3::MovingObject`, reduced to its optional base record. -/
structure MovingObject where
  base : Option BaseMoving
  deriving DecidableEq

/-- The generated accessor `has_base()`. -/
def MovingObject.has_base (o : MovingObject) : Bool := o.base.isSome

/-- The generated accessor `base()`: the record, or the default instance when absent. -/
def MovingObject.get_base (o : MovingObject) : BaseMoving := o.base.getD BaseMoving.default_instance

/-- The message `osi3::SensorData`, reduced to its repeated moving-object field. -/
structure SensorData where
  moving_object : List MovingObject
  deriving DecidableEq

/-- A default-constructed (cleared) message. -/
def SensorData.empty : SensorData := { moving_object := [] }

/-- The accessor `moving_object(0)`; the code calls it on a non-empty collection only. -/
def SensorData.moving_object0 (d : SensorData) : MovingObject :=
  d.moving_object.headD { base := none }

/-- The accessor `moving_object_size()`, an `int`. -/
def SensorData.moving_object_size (d : SensorData) : Int := toInt32 d.moving_object.length

/-! ## Configuration and environment -/

/-- Address width selected by the preprocessor (`PTRDIFF_MAX`). -/
inductive PtrWidth where
  | bits64
  | bits32
  deriving DecidableEq

/-- Number of bits of an address. -/
def PtrWidth.bits : PtrWidth → Nat
  | .bits64 => 64
  | .bits32 => 32

/-- The compile-time constants of `OSIFieldChecker.h`, which is not part of the sources. -/
structure Config where
  ptr_width : PtrWidth
  FMI_REAL_VARS : Nat
  FMI_INTEGER_VARS : Nat
  FMI_BOOLEAN_VARS : Nat
  FMI_STRING_VARS : Nat
  FMI_INTEGER_SENSORDATA_IN_BASELO_IDX : Nat
  FMI_INTEGER_SENSORDATA_IN_BASEHI_IDX : Nat
  FMI_INTEGER_SENSORDATA_IN_SIZE_IDX : Nat
  FMI_INTEGER_SENSORDATA_OUT_BASELO_IDX : Nat
  FMI_INTEGER_SENSORDATA_OUT_BASEHI_IDX : Nat
  FMI_INTEGER_SENSORDATA_OUT_SIZE_IDX : Nat
  FMI_INTEGER_COUNT_IDX : Nat
  FMI_BOOLEAN_VALID_IDX : Nat
  FMI_STRING_CHECK_FILE_IDX : Nat

/-- The two heap strings created by the constructor. -/
inductive Slot where
  | first
  | second
  deriving DecidableEq

/-- The library and host behaviour the code relies on. -/
structure Env where
  /-- The call `data.ParseFromArray(buffer, size)`: success flag and the content left in `data`. -/
  ParseFromArray : Nat → Int → Bool × SensorData
  /-- The bytes that `SerializeToString` stores into the target string. -/
  SerializeToString : SensorData → List UInt8
  /-- The address `data()` of a heap string holding the given bytes. -/
  data : Slot → List UInt8 → Nat
  /-- The lines of the file at a path, when it can be opened for reading. -/
  open_file : String → Option (List String)

/-! ## Component state -/

/-- The data members of `class OSIFieldChecker` that the modelled code reads or writes. -/
structure State where
  boolean_vars_ : List fmi2Boolean
  integer_vars_ : List fmi2Integer
  real_vars_ : List fmi2Real
  string_vars_ : List String
  simulation_started_ : Bool
  current_output_buffer_ : Slot
  last_output_buffer_ : Slot
  heap_first : List UInt8
  heap_second : List UInt8
  expected_osi_fields_ : Finset String
  missing_fields_ : Finset String

/-- Content of a heap string. -/
def State.heap (st : State) : Slot → List UInt8
  | .first => st.heap_first
  | .second => st.heap_second

/-- Assignment of new content to a heap string. -/
def State.heap_store (st : State) (s : Slot) (bytes : List UInt8) : State :=
  match s with
  | .first => { st with heap_first := bytes }
  | .second => { st with heap_second := bytes }

/-- The member arrays have the declared capacities and the two buffer pointers differ. -/
def State.WF (cfg : Config) (st : State) : Prop :=
  st.real_vars_.length = cfg.FMI_REAL_VARS ∧
  st.integer_vars_.length = cfg.FMI_INTEGER_VARS ∧
  st.boolean_vars_.length = cfg.FMI_BOOLEAN_VARS ∧
  st.string_vars_.length = cfg.FMI_STRING_VARS ∧
  st.current_output_buffer_ ≠ st.last_output_buffer_

/-- Read of `integer_vars_[i]`. -/
def State.integer_var (st : State) (i : Nat) : fmi2Integer := st.integer_vars_.getD i 0

/-- The assignment `integer_vars_[i] = v`. -/
def State.set_integer (st : State) (i : Nat) (v : fmi2Integer) : State :=
  { st with integer_vars_ := st.integer_vars_.set i v }

/-! ## ProtocolBuffer accessors -/

/-- Translation of `DecodeIntegerToPointer` (the union overlays `lo` on the low half). -/
def DecodeIntegerToPointer (w : PtrWidth) (hi lo : fmi2Integer) : Nat :=
  match w with
  | .bits64 => toUInt32 hi * 2 ^ 32 + toUInt32 lo
  | .bits32 => toUInt32 lo

/-- Translation of `EncodePointerToInteger`: the pair `(hi, lo)` written through the references. -/
def EncodePointerToInteger (w : PtrWidth) (ptr : Nat) : fmi2Integer × fmi2Integer :=
  match w with
  | .bits64 => (toInt32 (ptr / 2 ^ 32), toInt32 ptr)
  | .bits32 => (0, toInt32 ptr)

/-- Translation of `GetFmiSensorDataIn`: the return value and the content of `data`. -/
def GetFmiSensorDataIn (cfg : Config) (env : Env) (st : State) : Bool × SensorData :=
  if st.integer_var cfg.FMI_INTEGER_SENSORDATA_IN_SIZE_IDX > 0 then
    let buffer := DecodeIntegerToPointer cfg.ptr_width
      (st.integer_var cfg.FMI_INTEGER_SENSORDATA_IN_BASEHI_IDX)
      (st.integer_var cfg.FMI_INTEGER_SENSORDATA_IN_BASELO_IDX)
    (true, (env.ParseFromArray buffer (st.integer_var cfg.FMI_INTEGER_SENSORDATA_IN_SIZE_IDX)).2)
  else
    (false, SensorData.empty)

/-- Translation of `SetFmiSensorDataOut`. -/
def SetFmiSensorDataOut (cfg : Config) (env : Env) (st : State) (data : SensorData) : State :=
  let cur := st.current_output_buffer_
  let st1 := st.heap_store cur (env.SerializeToString data)
  let enc := EncodePointerToInteger cfg.ptr_width (env.data cur (st1.heap cur))
  let st2 := st1.set_integer cfg.FMI_INTEGER_SENSORDATA_OUT_BASEHI_IDX enc.1
  let st3 := st2.set_integer cfg.FMI_INTEGER_SENSORDATA_OUT_BASELO_IDX enc.2
  let st4 := st3.set_integer cfg.FMI_INTEGER_SENSORDATA_OUT_SIZE_IDX (toInt32 (st3.heap cur).length)
  { st4 with current_output_buffer_ := st4.last_output_buffer_,
             last_output_buffer_ := st4.current_output_buffer_ }

/-- Translation of `ResetFmiSensorDataOut`. -/
def ResetFmiSensorDataOut (cfg : Config) (st : State) : State :=
  let st1 := st.set_integer cfg.FMI_INTEGER_SENSORDATA_OUT_SIZE_IDX 0
  let st2 := st1.set_integer cfg.FMI_INTEGER_SENSORDATA_OUT_BASEHI_IDX 0
  st2.set_integer cfg.FMI_INTEGER_SENSORDATA_OUT_BASELO_IDX 0

/-- The inline setter `SetFmiValid` of the header: it stores into the valid flag. -/
def SetFmiValid (cfg : Config) (st : State) (value : fmi2Boolean) : State :=
  { st with boolean_vars_ := st.boolean_vars_.set cfg.FMI_BOOLEAN_VALID_IDX value }

/-- The inline setter `SetFmiCount` of the header: it stores into the count variable. -/
def SetFmiCount (cfg : Config) (st : State) (value : fmi2Integer) : State :=
  st.set_integer cfg.FMI_INTEGER_COUNT_IDX value

/-- The inline getter `FmiCheckFile` of the header: the configured path of the field list. -/
def FmiCheckFile (cfg : Config) (st : State) : String :=
  st.string_vars_.getD cfg.FMI_STRING_CHECK_FILE_IDX ""

/-! ## Core content -/

/-- Translation of `DoInit`: every element of the four arrays is overwritten with its zero. -/
def DoInit (st : State) : fmi2Status × State :=
  (fmi2Status.fmi2OK,
    { st with boolean_vars_ := st.boolean_vars_.map (fun _ => fmi2False),
              integer_vars_ := st.integer_vars_.map (fun _ => 0),
              real_vars_ := st.real_vars_.map (fun _ => Double.finite 0),
              string_vars_ := st.string_vars_.map (fun _ => "") })

/-- Translation of `DoEnterInitializationMode`. -/
def DoEnterInitializationMode (st : State) : fmi2Status × State := (fmi2Status.fmi2OK, st)

/-- Translation of `DoExitInitializationMode`: every line of the file is inserted. -/
def DoExitInitializationMode (cfg : Config) (env : Env) (st : State) : fmi2Status × State :=
  match env.open_file (FmiCheckFile cfg st) with
  | some lines =>
    let inserted := lines.foldl (fun acc current_line => insert current_line acc)
      st.expected_osi_fields_
    (fmi2Status.fmi2OK, { st with expected_osi_fields_ := inserted })
  | none => (fmi2Status.fmi2OK, st)

/-- The body of the loop of `CheckMovingObjects` for one element of the expected set. -/
def CheckMovingObjects_body (sensor_data_in : SensorData) (missing : Finset String)
    (current_check : String) : Finset String :=
  let o := sensor_data_in.moving_object0
  if current_check == "moving_object.base" && !o.has_base then
    insert current_check missing
  else if current_check == "moving_object.base.dimension" && o.has_base
      && !o.get_base.dimension.isSome then
    insert current_check missing
  else if current_check == "moving_object.base.position" && o.has_base
      && !o.get_base.position.isSome then
    insert current_check missing
  else if current_check == "moving_object.base.orientation" && o.has_base
      && !o.get_base.orientation.isSome then
    insert current_check missing
  else if current_check == "moving_object.base.velocity" && o.has_base
      && !o.get_base.velocity.isSome then
    insert current_check missing
  else if current_check == "moving_object.base.acceleration" && o.has_base
      && !o.get_base.acceleration.isSome then
    insert current_check missing
  else if current_check == "moving_object.base.orientation_rate" && o.has_base
      && !o.get_base.orientation_rate.isSome then
    insert current_check missing
  else if current_check == "moving_object.base.orientation_acceleration" && o.has_base
      && !o.get_base.orientation_acceleration.isSome then
    insert current_check missing
  else if current_check == "moving_object.base.base_polygon" && o.has_base
      && o.get_base.base_polygon.isEmpty then
    insert current_check missing
  else
    missing

/-- Translation of `CheckMovingObjects`: the loop runs over the expected set in its order. -/
def CheckMovingObjects (st : State) (sensor_data_in : SensorData)
    (_current_communication_point : fmi2Real) : State :=
  let order := st.expected_osi_fields_.sort (fun a b => a ≤ b)
  { st with missing_fields_ :=
      order.foldl (CheckMovingObjects_body sensor_data_in) st.missing_fields_ }

/-- The constant `start_check_in_s` of `DoCalc`. -/
def start_check_in_s : Double := Double.finite (1 / 2)

/-- Translation of `DoCalc`. -/
def DoCalc (cfg : Config) (env : Env) (st : State)
    (current_communication_point _communication_step_size : fmi2Real) : fmi2Status × State :=
  let got := GetFmiSensorDataIn cfg env st
  let sensor_data_in := got.2
  if got.1 && current_communication_point.gt start_check_in_s then
    let st1 :=
      if !sensor_data_in.moving_object.isEmpty
          && decide ("moving_object" ∈ st.expected_osi_fields_) then
        CheckMovingObjects st sensor_data_in current_communication_point
      else if "moving_object" ∈ st.expected_osi_fields_ then
        { st with missing_fields_ := insert "moving_object" st.missing_fields_ }
      else
        st
    let sensor_data_out := sensor_data_in
    let st2 := SetFmiSensorDataOut cfg env st1 sensor_data_out
    let st3 := SetFmiValid cfg st2 1
    let st4 := SetFmiCount cfg st3 sensor_data_out.moving_object_size
    (fmi2Status.fmi2OK, st4)
  else
    let st1 := ResetFmiSensorDataOut cfg st
    let st2 := SetFmiValid cfg st1 0
    let st3 := SetFmiCount cfg st2 0
    (fmi2Status.fmi2OK, st3)

/-- Translation of `DoTerm`. -/
def DoTerm (st : State) : fmi2Status × State := (fmi2Status.fmi2OK, st)

/-! ## Generic wrapper code -/

/-- Translation of `EnterInitializationMode`. -/
def EnterInitializationMode (st : State) : fmi2Status × State := DoEnterInitializationMode st

/-- Translation of `ExitInitializationMode`. -/
def ExitInitializationMode (cfg : Config) (env : Env) (st : State) : fmi2Status × State :=
  DoExitInitializationMode cfg env { st with simulation_started_ := true }

/-- Translation of `DoStep`. -/
def DoStep (cfg : Config) (env : Env) (st : State)
    (current_communication_point communication_step_size : fmi2Real)
    (_no_set_fmu_state_prior : fmi2Boolean) : fmi2Status × State :=
  DoCalc cfg env st current_communication_point communication_step_size

/-- What `Terminate` writes to `std::cout` and the commands it hands to `system`. -/
structure TerminateReport where
  cout : List String
  system_calls : List String
  deriving DecidableEq

/-- Translation of `Terminate`: one line per missing field, then the failure signal. -/
def Terminate (st : State) : fmi2Status × State × TerminateReport :=
  let fields := st.missing_fields_.sort (fun a b => a ≤ b)
  let lines := fields.map (fun current_missing_field =>
    "::error title=MissingField::" ++ current_missing_field)
  let num_missing_fields := fields.length
  let report : TerminateReport :=
    if num_missing_fields > 0 then
      { cout := lines ++ ["test failed"],
        system_calls := ["echo \"failed=" ++ toString 1 ++ "\" >> $GITHUB_OUTPUT"] }
    else
      { cout := lines, system_calls := [] }
  ((DoTerm st).1, (DoTerm st).2, report)

/-- Translation of `Reset`. -/
def Reset (st : State) : fmi2Status × State :=
  DoInit { st with simulation_started_ := false }

/-! ## Batch access to the scalar arrays -/

/-- The loop shared by the four setters: `i` is the loop index, `remaining` is `nvr - i`. -/
def set_loop {α : Type} (capacity : Nat) (vr : Nat → fmi2ValueReference) (value : Nat → α) :
    Nat → Nat → List α → fmi2Status × List α
  | 0, _, vars => (fmi2Status.fmi2OK, vars)
  | remaining + 1, i, vars =>
    if vr i < capacity then
      set_loop capacity vr value remaining (i + 1) (vars.set (vr i) (value i))
    else
      (fmi2Status.fmi2Error, vars)

/-- The loop shared by the four getters; `out` is the caller's array `value[]`. -/
def get_loop {α : Type} (capacity : Nat) (vr : Nat → fmi2ValueReference) (vars : List α)
    (zero : α) : Nat → Nat → (Nat → α) → fmi2Status × (Nat → α)
  | 0, _, out => (fmi2Status.fmi2OK, out)
  | remaining + 1, i, out =>
    if vr i < capacity then
      get_loop capacity vr vars zero remaining (i + 1) (Function.update out i (vars.getD (vr i) zero))
    else
      (fmi2Status.fmi2Error, out)

/-- Translation of `GetReal`. -/
def GetReal (cfg : Config) (st : State) (vr : Nat → fmi2ValueReference) (nvr : Nat)
    (value : Nat → fmi2Real) : fmi2Status × State × (Nat → fmi2Real) :=
  let r := get_loop cfg.FMI_REAL_VARS vr st.real_vars_ (Double.finite 0) nvr 0 value
  (r.1, st, r.2)

/-- Translation of `GetInteger`. -/
def GetInteger (cfg : Config) (st : State) (vr : Nat → fmi2ValueReference) (nvr : Nat)
    (value : Nat → fmi2Integer) : fmi2Status × State × (Nat → fmi2Integer) :=
  let r := get_loop cfg.FMI_INTEGER_VARS vr st.integer_vars_ 0 nvr 0 value
  (r.1, st, r.2)

/-- Translation of `GetBoolean`. -/
def GetBoolean (cfg : Config) (st : State) (vr : Nat → fmi2ValueReference) (nvr : Nat)
    (value : Nat → fmi2Boolean) : fmi2Status × State × (Nat → fmi2Boolean) :=
  let r := get_loop cfg.FMI_BOOLEAN_VARS vr st.boolean_vars_ 0 nvr 0 value
  (r.1, st, r.2)

/-- Translation of `GetString`. -/
def GetString (cfg : Config) (st : State) (vr : Nat → fmi2ValueReference) (nvr : Nat)
    (value : Nat → String) : fmi2Status × State × (Nat → String) :=
  let r := get_loop cfg.FMI_STRING_VARS vr st.string_vars_ "" nvr 0 value
  (r.1, st, r.2)

/-- Translation of `SetReal`. -/
def SetReal (cfg : Config) (st : State) (vr : Nat → fmi2ValueReference) (nvr : Nat)
    (value : Nat → fmi2Real) : fmi2Status × State :=
  let r := set_loop cfg.FMI_REAL_VARS vr value nvr 0 st.real_vars_
  (r.1, { st with real_vars_ := r.2 })

/-- Translation of `SetInteger`. -/
def SetInteger (cfg : Config) (st : State) (vr : Nat → fmi2ValueReference) (nvr : Nat)
    (value : Nat → fmi2Integer) : fmi2Status × State :=
  let r := set_loop cfg.FMI_INTEGER_VARS vr value nvr 0 st.integer_vars_
  (r.1, { st with integer_vars_ := r.2 })

/-- Translation of `SetBoolean`. -/
def SetBoolean (cfg : Config) (st : State) (vr : Nat → fmi2ValueReference) (nvr : Nat)
    (value : Nat → fmi2Boolean) : fmi2Status × State :=
  let r := set_loop cfg.FMI_BOOLEAN_VARS vr value nvr 0 st.boolean_vars_
  (r.1, { st with boolean_vars_ := r.2 })

/-- Translation of `SetString`. -/
def SetString (cfg : Config) (st : State) (vr : Nat → fmi2ValueReference) (nvr : Nat)
    (value : Nat → String) : fmi2Status × State :=
  let r := set_loop cfg.FMI_STRING_VARS vr value nvr 0 st.string_vars_
  (r.1, { st with string_vars_ := r.2 })

/-! ## The input of a step -/

/-- The input size field. -/
def input_size (cfg : Config) (st : State) : fmi2Integer :=
  st.integer_var cfg.FMI_INTEGER_SENSORDATA_IN_SIZE_IDX

/-- The address decoded from the input address fields. -/
def input_address (cfg : Config) (st : State) : Nat :=
  DecodeIntegerToPointer cfg.ptr_width
    (st.integer_var cfg.FMI_INTEGER_SENSORDATA_IN_BASEHI_IDX)
    (st.integer_var cfg.FMI_INTEGER_SENSORDATA_IN_BASELO_IDX)

/-- What the parser makes of the designated input buffer. -/
def parsed_input (cfg : Config) (env : Env) (st : State) : Bool × SensorData :=
  env.ParseFromArray (input_address cfg st) (input_size cfg st)

/-! ## The rule table of the specification -/

/-- The seven sub-record rows of the rule table: the path and the presence of its sub-record. -/
def sub_record_rows : List (String × (BaseMoving → Bool)) :=
  [ ("moving_object.base.dimension", fun b => b.dimension.isSome),
    ("moving_object.base.position", fun b => b.position.isSome),
    ("moving_object.base.orientation", fun b => b.orientation.isSome),
    ("moving_object.base.velocity", fun b => b.velocity.isSome),
    ("moving_object.base.acceleration", fun b => b.acceleration.isSome),
    ("moving_object.base.orientation_rate", fun b => b.orientation_rate.isSome),
    ("moving_object.base.orientation_acceleration", fun b => b.orientation_acceleration.isSome) ]

/-- The rule table of the field presence checker for the paths below `moving_object.base`:
the path and its violation condition on the first entry of the collection. -/
def rule_table : List (String × (MovingObject → Bool)) :=
  [ ("moving_object.base", fun o => o.base.isNone) ]
  ++ sub_record_rows.map (fun row =>
      (row.1, fun o => match o.base with
        | some b => !row.2 b
        | none => false))
  ++ [ ("moving_object.base.base_polygon", fun o => match o.base with
        | some b => b.base_polygon.isEmpty
        | none => false) ]

/-- A path is violated when it is a row of the rule table whose condition holds. -/
def violation (path : String) (first : MovingObject) : Bool :=
  match rule_table.lookup path with
  | some condition => condition first
  | none => false


/-! ## Sample inputs -/

/-- A configuration with the usual layout of the integer variables. -/
def sample_config : Config :=
  { ptr_width := .bits64, FMI_REAL_VARS := 1, FMI_INTEGER_VARS := 7, FMI_BOOLEAN_VARS := 1,
    FMI_STRING_VARS := 1,
    FMI_INTEGER_SENSORDATA_IN_BASELO_IDX := 0, FMI_INTEGER_SENSORDATA_IN_BASEHI_IDX := 1,
    FMI_INTEGER_SENSORDATA_IN_SIZE_IDX := 2, FMI_INTEGER_SENSORDATA_OUT_BASELO_IDX := 3,
    FMI_INTEGER_SENSORDATA_OUT_BASEHI_IDX := 4, FMI_INTEGER_SENSORDATA_OUT_SIZE_IDX := 5,
    FMI_INTEGER_COUNT_IDX := 6, FMI_BOOLEAN_VALID_IDX := 0, FMI_STRING_CHECK_FILE_IDX := 0 }

/-- A base record that has a dimension and nothing else. -/
def sample_base : BaseMoving :=
  { BaseMoving.default_instance with dimension := some ⟨.finite 0, .finite 0, .finite 0⟩ }

/-- A message with one moving object whose base record has no position. -/
def sample_message : SensorData := { moving_object := [{ base := some sample_base }] }

/-- An environment in which every input buffer parses to a fixed message. -/
def sample_env (ok : Bool) (d : SensorData) : Env :=
  { ParseFromArray := fun _ _ => (ok, d),
    SerializeToString := fun m => m.moving_object.map (fun _ => 10),
    data := fun s _ => match s with
      | .first => 4096
      | .second => 8192,
    open_file := fun _ => none }

/-- A state after initialization with a pending input of five bytes. -/
def sample_state (expected : Finset String) : State :=
  { boolean_vars_ := [0], integer_vars_ := [256, 0, 5, 0, 0, 0, 0], real_vars_ := [.finite 0],
    string_vars_ := [""], simulation_started_ := true,
    current_output_buffer_ := .first, last_output_buffer_ := .second,
    heap_first := [], heap_second := [],
    expected_osi_fields_ := expected, missing_fields_ := ∅ }

/-- A state without pending input whose output fields still hold an earlier publication. -/
def sample_state_no_input : State :=
  { boolean_vars_ := [1], integer_vars_ := [0, 0, 0, 4096, 7, 3, 1], real_vars_ := [.finite 0],
    string_vars_ := [""], simulation_started_ := true,
    current_output_buffer_ := .second, last_output_buffer_ := .first,
    heap_first := [10, 10, 10], heap_second := [],
    expected_osi_fields_ := {"moving_object"}, missing_fields_ := ∅ }

/-! ## Well-formedness, operations of the host, reference behaviour of the batch setters -/

/-- The index constants address distinct slots inside their arrays. -/
def Config.WF (cfg : Config) : Prop :=
  [cfg.FMI_INTEGER_SENSORDATA_IN_BASELO_IDX, cfg.FMI_INTEGER_SENSORDATA_IN_BASEHI_IDX,
    cfg.FMI_INTEGER_SENSORDATA_IN_SIZE_IDX, cfg.FMI_INTEGER_SENSORDATA_OUT_BASELO_IDX,
    cfg.FMI_INTEGER_SENSORDATA_OUT_BASEHI_IDX, cfg.FMI_INTEGER_SENSORDATA_OUT_SIZE_IDX,
    cfg.FMI_INTEGER_COUNT_IDX].Nodup ∧
  cfg.FMI_INTEGER_SENSORDATA_IN_BASELO_IDX < cfg.FMI_INTEGER_VARS ∧
  cfg.FMI_INTEGER_SENSORDATA_IN_BASEHI_IDX < cfg.FMI_INTEGER_VARS ∧
  cfg.FMI_INTEGER_SENSORDATA_IN_SIZE_IDX < cfg.FMI_INTEGER_VARS ∧
  cfg.FMI_INTEGER_SENSORDATA_OUT_BASELO_IDX < cfg.FMI_INTEGER_VARS ∧
  cfg.FMI_INTEGER_SENSORDATA_OUT_BASEHI_IDX < cfg.FMI_INTEGER_VARS ∧
  cfg.FMI_INTEGER_SENSORDATA_OUT_SIZE_IDX < cfg.FMI_INTEGER_VARS ∧
  cfg.FMI_INTEGER_COUNT_IDX < cfg.FMI_INTEGER_VARS ∧
  cfg.FMI_BOOLEAN_VALID_IDX < cfg.FMI_BOOLEAN_VARS ∧
  cfg.FMI_STRING_CHECK_FILE_IDX < cfg.FMI_STRING_VARS

/-- The calls a host can make on an instance; a call carries the memory and file system
(`Env`) it runs against and the arrays it passes. -/
inductive Op where
  | enterInitializationMode
  | exitInitializationMode (env : Env)
  | doStep (env : Env) (current_communication_point communication_step_size : fmi2Real)
      (no_set_fmu_state_prior : fmi2Boolean)
  | terminate
  | reset
  | getReal (vr : Nat → fmi2ValueReference) (nvr : Nat) (value : Nat → fmi2Real)
  | getInteger (vr : Nat → fmi2ValueReference) (nvr : Nat) (value : Nat → fmi2Integer)
  | getBoolean (vr : Nat → fmi2ValueReference) (nvr : Nat) (value : Nat → fmi2Boolean)
  | getString (vr : Nat → fmi2ValueReference) (nvr : Nat) (value : Nat → String)
  | setReal (vr : Nat → fmi2ValueReference) (nvr : Nat) (value : Nat → fmi2Real)
  | setInteger (vr : Nat → fmi2ValueReference) (nvr : Nat) (value : Nat → fmi2Integer)
  | setBoolean (vr : Nat → fmi2ValueReference) (nvr : Nat) (value : Nat → fmi2Boolean)
  | setString (vr : Nat → fmi2ValueReference) (nvr : Nat) (value : Nat → String)

/-- The state after one call. -/
def Op.run (cfg : Config) : Op → State → State
  | .enterInitializationMode, st => (EnterInitializationMode st).2
  | .exitInitializationMode env, st => (ExitInitializationMode cfg env st).2
  | .doStep env t dt flag, st => (DoStep cfg env st t dt flag).2
  | .terminate, st => (Terminate st).2.1
  | .reset, st => (Reset st).2
  | .getReal vr nvr value, st => (GetReal cfg st vr nvr value).2.1
  | .getInteger vr nvr value, st => (GetInteger cfg st vr nvr value).2.1
  | .getBoolean vr nvr value, st => (GetBoolean cfg st vr nvr value).2.1
  | .getString vr nvr value, st => (GetString cfg st vr nvr value).2.1
  | .setReal vr nvr value, st => (SetReal cfg st vr nvr value).2
  | .setInteger vr nvr value, st => (SetInteger cfg st vr nvr value).2
  | .setBoolean vr nvr value, st => (SetBoolean cfg st vr nvr value).2
  | .setString vr nvr value, st => (SetString cfg st vr nvr value).2

/-- The state after a sequence of calls. -/
def run_all (cfg : Config) (ops : List Op) (st : State) : State :=
  ops.foldl (fun s op => op.run cfg s) st

/-- A call is a step with valid input when it is a step, the input size is positive and the
communication point is past the settling period. -/
def Op.is_valid_step (cfg : Config) : Op → State → Bool
  | .doStep _ t _ _, st => decide (0 < input_size cfg st) && t.gt start_check_in_s
  | _, _ => false

/-- The array after the writes `vars[vr[j]] = value[j]` for `j = 0, ..., k - 1`, in this order. -/
def apply_writes {α : Type} (vr : Nat → fmi2ValueReference) (value : Nat → α) (k : Nat)
    (vars : List α) : List α :=
  (List.range k).foldl (fun acc j => acc.set (vr j) (value j)) vars

/-- What the specification says of a batch set on one array: the status is `fmi2Error` exactly
when some reference is out of range, and the array holds the writes before position `k`, the
position of the first out-of-range reference (`k = nvr` when there is none). -/
def batch_set_spec {α : Type} (capacity : Nat) (vr : Nat → fmi2ValueReference)
    (value : Nat → α) (nvr : Nat) (vars : List α) (status : fmi2Status) (vars2 : List α) : Prop :=
  ∃ k, k ≤ nvr ∧ (∀ j, j < k → vr j < capacity) ∧ (k < nvr → capacity ≤ vr k)
    ∧ (status = fmi2Status.fmi2Error ↔ ∃ j, j < nvr ∧ capacity ≤ vr j)
    ∧ (status = fmi2Status.fmi2OK ∨ status = fmi2Status.fmi2Error)
    ∧ vars2 = apply_writes vr value k vars

/-- What the specification says of a batch get on one array: an out-of-range reference gives
`fmi2Error`; references that are all in range give `fmi2OK` and `value[j]` is slot `vr[j]`. -/
def batch_get_spec {α : Type} (capacity : Nat) (vr : Nat → fmi2ValueReference) (nvr : Nat)
    (vars : List α) (status : fmi2Status) (value2 : Nat → α) : Prop :=
  ((∃ j, j < nvr ∧ capacity ≤ vr j) → status = fmi2Status.fmi2Error)
    ∧ ((∀ j, j < nvr → vr j < capacity) →
        status = fmi2Status.fmi2OK ∧ ∀ j, j < nvr → vars[vr j]? = some (value2 j))

/-! ## Unsupported features (FMUState, derivatives, async DoStep, status enquiries) -/

/-- The enumeration `fmi2StatusKind` of the FMI 2.0 interface. -/
inductive fmi2StatusKind where
  | fmi2DoStepStatus
  | fmi2PendingStatus
  | fmi2LastSuccessfulTime
  | fmi2Terminated
  deriving DecidableEq

/-- Translation of `fmi2GetFMUstate`; pointers are addresses. -/
def fmi2GetFMUstate (_c : State) (_fmu_state : Nat) : fmi2Status := fmi2Status.fmi2Error

/-- Translation of `fmi2SetFMUstate`. -/
def fmi2SetFMUstate (_c : State) (_fmu_state : Nat) : fmi2Status := fmi2Status.fmi2Error

/-- Translation of `fmi2FreeFMUstate`. -/
def fmi2FreeFMUstate (_c : State) (_fmu_state : Nat) : fmi2Status := fmi2Status.fmi2Error

/-- Translation of `fmi2SerializedFMUstateSize`. -/
def fmi2SerializedFMUstateSize (_c : State) (_fmu_state : Nat) (_size : Nat) : fmi2Status :=
  fmi2Status.fmi2Error

/-- Translation of `fmi2SerializeFMUstate`. -/
def fmi2SerializeFMUstate (_c : State) (_fmu_state : Nat) (_serialized_state : Nat → UInt8)
    (_size : Nat) : fmi2Status :=
  fmi2Status.fmi2Error

/-- Translation of `fmi2DeSerializeFMUstate`. -/
def fmi2DeSerializeFMUstate (_c : State) (_serialized_state : Nat → UInt8) (_size : Nat)
    (_fmu_state : Nat) : fmi2Status :=
  fmi2Status.fmi2Error

/-- Translation of `fmi2GetDirectionalDerivative`. -/
def fmi2GetDirectionalDerivative (_c : State) (_v_unknown_ref : Nat → fmi2ValueReference)
    (_n_unknown : Nat) (_v_known_ref : Nat → fmi2ValueReference) (_n_known : Nat)
    (_dv_known : Nat → fmi2Real) (_dv_unknown : Nat → fmi2Real) : fmi2Status :=
  fmi2Status.fmi2Error

/-- Translation of `fmi2SetRealInputDerivatives`. -/
def fmi2SetRealInputDerivatives (_c : State) (_vr : Nat → fmi2ValueReference) (_nvr : Nat)
    (_order : Nat → fmi2Integer) (_value : Nat → fmi2Real) : fmi2Status :=
  fmi2Status.fmi2Error

/-- Translation of `fmi2GetRealOutputDerivatives`. -/
def fmi2GetRealOutputDerivatives (_c : State) (_vr : Nat → fmi2ValueReference) (_nvr : Nat)
    (_order : Nat → fmi2Integer) (_value : Nat → fmi2Real) : fmi2Status :=
  fmi2Status.fmi2Error

/-- Translation of `fmi2CancelStep`. -/
def fmi2CancelStep (_c : State) : fmi2Status := fmi2Status.fmi2OK

/-- Translation of `fmi2GetStatus`. -/
def fmi2GetStatus (_c : State) (_s : fmi2StatusKind) (_value : Nat) : fmi2Status :=
  fmi2Status.fmi2Discard

/-- Translation of `fmi2GetRealStatus`. -/
def fmi2GetRealStatus (_c : State) (_s : fmi2StatusKind) (_value : Nat) : fmi2Status :=
  fmi2Status.fmi2Discard

/-- Translation of `fmi2GetIntegerStatus`. -/
def fmi2GetIntegerStatus (_c : State) (_s : fmi2StatusKind) (_value : Nat) : fmi2Status :=
  fmi2Status.fmi2Discard

/-- Translation of `fmi2GetBooleanStatus`. -/
def fmi2GetBooleanStatus (_c : State) (_s : fmi2StatusKind) (_value : Nat) : fmi2Status :=
  fmi2Status.fmi2Discard

/-- Translation of `fmi2GetStringStatus`. -/
def fmi2GetStringStatus (_c : State) (_s : fmi2StatusKind) (_value : Nat) : fmi2Status :=
  fmi2Status.fmi2Discard

/-! ## Further notions used by the properties -/

/-- The C++ comparison `a <= b` on doubles: false as soon as one side is a NaN. -/
def Double.le : Double → Double → Bool
  | .nan, _ => false
  | _, .nan => false
  | .finite a, .finite b => decide (a ≤ b)
  | .finite _, .posInf => true
  | .finite _, .negInf => false
  | .posInf, .posInf => true
  | .posInf, _ => false
  | .negInf, _ => true

/-- The state the constructor leaves: two distinct empty strings, no expected and no missing
field, the run not started. The header gives the arrays their capacities. -/
def State.constructed (cfg : Config) (st : State) : Prop :=
  st.WF cfg ∧ st.simulation_started_ = false ∧ st.heap_first = [] ∧ st.heap_second = []
    ∧ st.expected_osi_fields_ = ∅ ∧ st.missing_fields_ = ∅

/-- The calls that read the required-field source. -/
def Op.loads_fields : Op → Bool
  | .exitInitializationMode _ => true
  | _ => false

/-- The diagnostic line that `Terminate` prints for a missing path. -/
def missing_field_line (path : String) : String := "::error title=MissingField::" ++ path

/-- The command that `Terminate` hands to `system` to flag the run as failed. -/
def failed_flag_command : String := "echo \"failed=1\" >> $GITHUB_OUTPUT"

/-- A freshly constructed instance for the sample configuration. -/
def sample_fresh_state : State :=
  { boolean_vars_ := [0], integer_vars_ := [0, 0, 0, 0, 0, 0, 0], real_vars_ := [.finite 0],
    string_vars_ := [""], simulation_started_ := false,
    current_output_buffer_ := .first, last_output_buffer_ := .second,
    heap_first := [], heap_second := [],
    expected_osi_fields_ := ∅, missing_fields_ := ∅ }

/-- An environment whose required-field source holds the given lines. -/
def sample_env_with_file (lines : List String) (d : SensorData) : Env :=
  { sample_env true d with open_file := fun _ => some lines }

/-- A state at the end of a run in which two paths were found missing. -/
def sample_state_missing : State :=
  { sample_state {"moving_object", "moving_object.base"} with
    missing_fields_ := {"moving_object", "moving_object.base"} }

/-- The state after loading the field list `moving_object` into a fresh instance and
announcing an input of five bytes. -/
def sample_loaded_state : State :=
  run_all sample_config
    [Op.exitInitializationMode (sample_env_with_file ["moving_object"] SensorData.empty),
      Op.setInteger (fun _ => 2) 1 (fun _ => 5)]
    sample_fresh_state

/-- What a batch set followed by a batch get of the same references yields on one array: both
calls return `fmi2OK`, position `i` of the result holds the value written at the last position
`j` with `vr[j] = vr[i]`, and a slot whose index does not occur in `vr` is unchanged. -/
def set_get_spec {α : Type} (vr : Nat → fmi2ValueReference) (nvr : Nat) (value : Nat → α)
    (vars vars2 : List α) (status_set status_get : fmi2Status) (value2 : Nat → α) : Prop :=
  status_set = fmi2Status.fmi2OK ∧ status_get = fmi2Status.fmi2OK
    ∧ (∀ i, i < nvr → ∃ j, j < nvr ∧ vr j = vr i
        ∧ (∀ l, j < l → l < nvr → vr l ≠ vr i) ∧ value2 i = value j)
    ∧ (∀ i, i < nvr → (∀ j, j < nvr → j ≠ i → vr j ≠ vr i) → value2 i = value i)
    ∧ (∀ x, (∀ j, j < nvr → vr j ≠ x) → vars2[x]? = vars[x]?)

/-- An instance whose arrays hold three reals; the other arrays have one slot. -/
def sample_wide_config : Config := { sample_config with FMI_REAL_VARS := 3 }

/-- A state for `sample_wide_config`. -/
def sample_wide_state : State :=
  { sample_fresh_state with real_vars_ := [.finite 1, .finite 2, .finite 3] }

/-! ## Auxiliary lemmas -/

theorem CheckMovingObjects_body_eq (d : SensorData) (m : Finset String) (p : String) :
    CheckMovingObjects_body d m p
      = if violation p d.moving_object0 = true then insert p m else m := by
  unfold CheckMovingObjects_body violation rule_table sub_record_rows
  by_cases h0 : p = "moving_object.base"
  · subst h0
    cases hb : d.moving_object0.base <;> simp [List.lookup, MovingObject.has_base, hb]
  by_cases h1 : p = "moving_object.base.dimension"
  · subst h1
    cases hb : d.moving_object0.base <;>
      simp [List.lookup, MovingObject.has_base, MovingObject.get_base, hb]
  by_cases h2 : p = "moving_object.base.position"
  · subst h2
    cases hb : d.moving_object0.base <;>
      simp [List.lookup, MovingObject.has_base, MovingObject.get_base, hb]
  by_cases h3 : p = "moving_object.base.orientation"
  · subst h3
    cases hb : d.moving_object0.base <;>
      simp [List.lookup, MovingObject.has_base, MovingObject.get_base, hb]
  by_cases h4 : p = "moving_object.base.velocity"
  · subst h4
    cases hb : d.moving_object0.base <;>
      simp [List.lookup, MovingObject.has_base, MovingObject.get_base, hb]
  by_cases h5 : p = "moving_object.base.acceleration"
  · subst h5
    cases hb : d.moving_object0.base <;>
      simp [List.lookup, MovingObject.has_base, MovingObject.get_base, hb]
  by_cases h6 : p = "moving_object.base.orientation_rate"
  · subst h6
    cases hb : d.moving_object0.base <;>
      simp [List.lookup, MovingObject.has_base, MovingObject.get_base, hb]
  by_cases h7 : p = "moving_object.base.orientation_acceleration"
  · subst h7
    cases hb : d.moving_object0.base <;>
      simp [List.lookup, MovingObject.has_base, MovingObject.get_base, hb]
  by_cases h8 : p = "moving_object.base.base_polygon"
  · subst h8
    cases hb : d.moving_object0.base <;>
      simp [List.lookup, MovingObject.has_base, MovingObject.get_base, hb]
  simp [List.lookup, beq_false_of_ne h0, beq_false_of_ne h1, beq_false_of_ne h2,
    beq_false_of_ne h3, beq_false_of_ne h4, beq_false_of_ne h5, beq_false_of_ne h6,
    beq_false_of_ne h7, beq_false_of_ne h8]

theorem foldl_CheckMovingObjects_body (d : SensorData) (l : List String) (m : Finset String) :
    l.foldl (CheckMovingObjects_body d) m
      = m ∪ (l.filter (fun p => violation p d.moving_object0)).toFinset := by
  induction l generalizing m with
  | nil => simp
  | cons p l ih =>
    rw [List.foldl_cons, ih, CheckMovingObjects_body_eq]
    by_cases h : violation p d.moving_object0 = true
    · simp only [h, if_true, List.filter_cons_of_pos, List.toFinset_cons]
      ext x
      simp only [Finset.mem_union, Finset.mem_insert]
      tauto
    · simp [h]

theorem CheckMovingObjects_missing (st : State) (d : SensorData) (t : fmi2Real) :
    (CheckMovingObjects st d t).missing_fields_
      = st.missing_fields_ ∪
          st.expected_osi_fields_.filter (fun p => violation p d.moving_object0 = true) := by
  unfold CheckMovingObjects
  simp only [foldl_CheckMovingObjects_body, List.toFinset_filter, Finset.sort_toFinset]

@[simp] theorem set_integer_missing (st : State) (i : Nat) (v : fmi2Integer) :
    (st.set_integer i v).missing_fields_ = st.missing_fields_ := rfl

@[simp] theorem heap_store_missing (st : State) (s : Slot) (bytes : List UInt8) :
    (st.heap_store s bytes).missing_fields_ = st.missing_fields_ := by
  cases s <;> rfl

@[simp] theorem SetFmiSensorDataOut_missing (cfg : Config) (env : Env) (st : State)
    (d : SensorData) :
    (SetFmiSensorDataOut cfg env st d).missing_fields_ = st.missing_fields_ := by
  simp [SetFmiSensorDataOut]

@[simp] theorem ResetFmiSensorDataOut_missing (cfg : Config) (st : State) :
    (ResetFmiSensorDataOut cfg st).missing_fields_ = st.missing_fields_ := rfl

@[simp] theorem SetFmiValid_missing (cfg : Config) (st : State) (v : fmi2Boolean) :
    (SetFmiValid cfg st v).missing_fields_ = st.missing_fields_ := rfl

@[simp] theorem SetFmiCount_missing (cfg : Config) (st : State) (v : fmi2Integer) :
    (SetFmiCount cfg st v).missing_fields_ = st.missing_fields_ := rfl

theorem GetFmiSensorDataIn_of_pos (cfg : Config) (env : Env) (st : State)
    (h : 0 < input_size cfg st) :
    GetFmiSensorDataIn cfg env st = (true, (parsed_input cfg env st).2) := by
  unfold input_size at h
  simp [GetFmiSensorDataIn, parsed_input, input_address, input_size, h]

theorem GetFmiSensorDataIn_of_nonpos (cfg : Config) (env : Env) (st : State)
    (h : input_size cfg st ≤ 0) :
    GetFmiSensorDataIn cfg env st = (false, SensorData.empty) := by
  unfold input_size at h
  simp [GetFmiSensorDataIn, not_lt.mpr h]

/-- The violation set that a valid step computes from the message it read. -/
theorem DoCalc_missing_of_valid (cfg : Config) (env : Env) (st : State) (t dt : fmi2Real)
    (hsize : 0 < input_size cfg st) (ht : t.gt start_check_in_s = true) :
    (DoCalc cfg env st t dt).2.missing_fields_ =
      if (parsed_input cfg env st).2.moving_object ≠ [] ∧ "moving_object" ∈ st.expected_osi_fields_
      then (CheckMovingObjects st (parsed_input cfg env st).2 t).missing_fields_
      else if "moving_object" ∈ st.expected_osi_fields_
      then insert "moving_object" st.missing_fields_
      else st.missing_fields_ := by
  unfold DoCalc
  simp only [GetFmiSensorDataIn_of_pos cfg env st hsize, ht, Bool.and_self, if_true]
  by_cases hE : "moving_object" ∈ st.expected_osi_fields_
  · cases hm : (parsed_input cfg env st).2.moving_object <;> simp [hE]
  · simp [hE]

theorem DoCalc_missing_of_invalid (cfg : Config) (env : Env) (st : State) (t dt : fmi2Real)
    (h : input_size cfg st ≤ 0 ∨ t.gt start_check_in_s = false) :
    (DoCalc cfg env st t dt).2.missing_fields_ = st.missing_fields_ := by
  unfold DoCalc
  rcases h with h | h
  · simp [GetFmiSensorDataIn_of_nonpos cfg env st h]
  · simp [h]

theorem violation_iff_row (p : String) (first : MovingObject) :
    violation p first = true ↔ ∃ row ∈ rule_table, row.1 = p ∧ row.2 first = true := by
  constructor
  · intro hp
    unfold violation at hp
    cases hl : rule_table.lookup p with
    | none => simp [hl] at hp
    | some c =>
      simp only [hl] at hp
      obtain ⟨l1, l2, hl12, _⟩ := List.lookup_eq_some_iff.mp hl
      exact ⟨(p, c), by simp [hl12], rfl, hp⟩
  · rintro ⟨row, hrow, rfl, hv⟩
    simp only [rule_table, sub_record_rows, List.map_cons, List.map_nil, List.cons_append,
      List.nil_append, List.mem_cons, List.mem_singleton, List.not_mem_nil, or_false] at hrow
    rcases hrow with h | h | h | h | h | h | h | h | h <;> subst h <;>
      simpa [violation, rule_table, sub_record_rows, List.lookup] using hv

/-- C2: one call of `CheckMovingObjects` on a message with a non-empty collection adds to the
missing set exactly the expected paths that are rows of the rule table whose violation
condition holds for the first entry; the result does not depend on further entries, and a
string outside the table is never added. -/
theorem CheckMovingObjects_adds_exactly_rule_table (st : State) (d : SensorData) (t : fmi2Real)
    (first : MovingObject) (rest : List MovingObject) (hd : d.moving_object = first :: rest) :
    (∀ p, p ∈ (CheckMovingObjects st d t).missing_fields_ ↔
        p ∈ st.missing_fields_ ∨
          (p ∈ st.expected_osi_fields_ ∧ ∃ row ∈ rule_table, row.1 = p ∧ row.2 first = true))
      ∧ (CheckMovingObjects st d t).missing_fields_
        = st.missing_fields_ ∪
            st.expected_osi_fields_.filter (fun p => violation p first = true)
      ∧ (∀ d2 : SensorData, d2.moving_object0 = first →
          (CheckMovingObjects st d2 t).missing_fields_
            = (CheckMovingObjects st d t).missing_fields_) := by
  have h0 : d.moving_object0 = first := by simp [SensorData.moving_object0, hd]
  refine ⟨?_, ?_, ?_⟩
  · intro p
    rw [CheckMovingObjects_missing, h0, Finset.mem_union, Finset.mem_filter, violation_iff_row]
  · rw [CheckMovingObjects_missing, h0]
  · intro d2 h2
    rw [CheckMovingObjects_missing, CheckMovingObjects_missing, h0, h2]

/-- Witness of C2 on the sample message, whose base record lacks a position. -/
theorem CheckMovingObjects_adds_exactly_rule_table_witness :
    (CheckMovingObjects (sample_state {"moving_object.base.position", "unknown.path"})
        sample_message (Double.finite 1)).missing_fields_
      = (sample_state {"moving_object.base.position", "unknown.path"}).missing_fields_ ∪
          (sample_state {"moving_object.base.position", "unknown.path"}).expected_osi_fields_.filter
            (fun p => violation p { base := some sample_base } = true) :=
  (CheckMovingObjects_adds_exactly_rule_table
    (sample_state {"moving_object.base.position", "unknown.path"}) sample_message
    (Double.finite 1) { base := some sample_base } [] rfl).2.1

theorem sample_time_gt : (Double.finite 1).gt start_check_in_s = true := by
  simp [Double.gt, start_check_in_s]
  norm_num

theorem sample_input_size (E : Finset String) : input_size sample_config (sample_state E) = 5 := rfl

theorem violation_moving_object (first : MovingObject) : violation "moving_object" first = false := by
  simp [violation, rule_table, sub_record_rows, List.lookup]

theorem violation_sub_record (row : String × (BaseMoving → Bool)) (hrow : row ∈ sub_record_rows)
    (first : MovingObject) (b : BaseMoving) (hb : first.base = some b) (habs : row.2 b = false) :
    violation row.1 first = true := by
  rw [violation_iff_row]
  refine ⟨(row.1, fun o => match o.base with
        | some b => !row.2 b
        | none => false), ?_, rfl, ?_⟩
  · unfold rule_table
    simp only [List.mem_append, List.mem_map]
    exact Or.inl (Or.inr ⟨row, hrow, rfl⟩)
  · simp [hb, habs]

/-- C1 (as stated) fails: with the expected set `{"moving_object.base.position"}` alone, a
valid step on a message whose first entry has a base record without position leaves the
missing set empty, because `DoCalc` reaches the checker only when `"moving_object"` is expected. -/
theorem DoCalc_presence_detection_counterexample :
    sample_message.moving_object = [{ base := some sample_base }]
      ∧ sample_base.position = none
      ∧ 0 < input_size sample_config (sample_state {"moving_object.base.position"})
      ∧ parsed_input sample_config (sample_env true sample_message)
          (sample_state {"moving_object.base.position"}) = (true, sample_message)
      ∧ (Double.finite 1).gt start_check_in_s = true
      ∧ (sample_state {"moving_object.base.position"}).missing_fields_ = ∅
      ∧ (DoCalc sample_config (sample_env true sample_message)
          (sample_state {"moving_object.base.position"}) (Double.finite 1)
          (Double.finite 1)).2.missing_fields_ = ∅
      ∧ (DoCalc sample_config (sample_env true sample_message)
          (sample_state {"moving_object.base.position"}) (Double.finite 1)
          (Double.finite 1)).2.missing_fields_ ≠ {"moving_object.base.position"} := by
  have hres : (DoCalc sample_config (sample_env true sample_message)
      (sample_state {"moving_object.base.position"}) (Double.finite 1)
      (Double.finite 1)).2.missing_fields_ = ∅ := by
    rw [DoCalc_missing_of_valid _ _ _ _ _ (by rw [sample_input_size]; decide) sample_time_gt]
    have hE : "moving_object" ∉ (sample_state {"moving_object.base.position"}).expected_osi_fields_ := by
      simp [sample_state]
    simp [hE]
    rfl
  refine ⟨rfl, rfl, by rw [sample_input_size]; decide, rfl, sample_time_gt, rfl, hres, ?_⟩
  rw [hres]
  exact (Finset.singleton_ne_empty _).symm

/-- C1 (amended): for every sub-record row `P` of the rule table and every message whose
first entry has a base record without that sub-record, one valid step (`DoCalc` and `DoStep`,
input size > 0, communication point > 0.5) with expected set `{"moving_object", P}` and an
empty missing set leaves the missing set equal to exactly `{P}`. -/
theorem DoCalc_presence_detection (cfg : Config) (env : Env) (st : State) (t dt : fmi2Real)
    (flag : fmi2Boolean)
    (row : String × (BaseMoving → Bool)) (hrow : row ∈ sub_record_rows)
    (first : MovingObject) (rest : List MovingObject) (b : BaseMoving)
    (hsize : 0 < input_size cfg st) (ht : t.gt start_check_in_s = true)
    (hd : (parsed_input cfg env st).2.moving_object = first :: rest)
    (hb : first.base = some b) (habs : row.2 b = false)
    (hE : st.expected_osi_fields_ = {"moving_object", row.1})
    (hM : st.missing_fields_ = ∅) :
    (DoCalc cfg env st t dt).2.missing_fields_ = {row.1}
      ∧ (DoStep cfg env st t dt flag).2.missing_fields_ = {row.1} := by
  have h0 : (parsed_input cfg env st).2.moving_object0 = first := by
    simp [SensorData.moving_object0, hd]
  have key : (DoCalc cfg env st t dt).2.missing_fields_ = {row.1} := by
    rw [DoCalc_missing_of_valid cfg env st t dt hsize ht, CheckMovingObjects_missing, h0, hE, hM]
    have hv := violation_sub_record row hrow first b hb habs
    have hm := violation_moving_object first
    simp only [hd, ne_eq, not_false_eq_true, Finset.mem_insert, true_or, and_self, if_true,
      Finset.empty_union, reduceCtorEq]
    ext x
    simp only [Finset.mem_filter, Finset.mem_insert, Finset.mem_singleton]
    constructor
    · rintro ⟨h | h, hx⟩
      · rw [h, hm] at hx; exact absurd hx (by decide)
      · exact h
    · intro h
      exact ⟨Or.inr h, by rw [h]; exact hv⟩
  exact ⟨key, key⟩

/-- Witness of C1 (amended) for the path `moving_object.base.position`. -/
theorem DoCalc_presence_detection_witness :
    (DoCalc sample_config (sample_env true sample_message)
        (sample_state {"moving_object", "moving_object.base.position"}) (Double.finite 1)
        (Double.finite 1)).2.missing_fields_ = {"moving_object.base.position"} :=
  (DoCalc_presence_detection sample_config (sample_env true sample_message)
    (sample_state {"moving_object", "moving_object.base.position"}) (Double.finite 1)
    (Double.finite 1) 1 ("moving_object.base.position", fun b => b.position.isSome)
    (by simp [sub_record_rows]) { base := some sample_base } [] sample_base
    (by rw [sample_input_size]; decide) sample_time_gt rfl rfl rfl rfl rfl).1

/-- C3: when `"moving_object"` is expected and the message has no moving-object entry, one
valid step adds exactly the path `"moving_object"` to the missing set, whatever else is
expected. -/
theorem DoCalc_empty_collection (cfg : Config) (env : Env) (st : State) (t dt : fmi2Real)
    (hsize : 0 < input_size cfg st) (ht : t.gt start_check_in_s = true)
    (hd : (parsed_input cfg env st).2.moving_object = [])
    (hE : "moving_object" ∈ st.expected_osi_fields_) :
    (DoCalc cfg env st t dt).2.missing_fields_ = insert "moving_object" st.missing_fields_ := by
  rw [DoCalc_missing_of_valid cfg env st t dt hsize ht]
  simp [hd, hE]

/-- Witness of C3: sub-field paths are expected too, and only `"moving_object"` is added. -/
theorem DoCalc_empty_collection_witness :
    (DoCalc sample_config (sample_env true SensorData.empty)
        (sample_state {"moving_object", "moving_object.base", "moving_object.base.position"})
        (Double.finite 1) (Double.finite 1)).2.missing_fields_
      = insert "moving_object"
          (sample_state {"moving_object", "moving_object.base",
            "moving_object.base.position"}).missing_fields_ :=
  DoCalc_empty_collection sample_config (sample_env true SensorData.empty)
    (sample_state {"moving_object", "moving_object.base", "moving_object.base.position"})
    (Double.finite 1) (Double.finite 1) (by rw [sample_input_size]; decide) sample_time_gt rfl
    (by simp [sample_state])

theorem toUInt32_toInt32 (u : Nat) : toUInt32 (toInt32 u) = u % 2 ^ 32 := by
  unfold toUInt32 toInt32
  split <;> omega

/-- C5: decoding the pair produced by encoding an address returns the address, for every
address of the 64-bit configuration and every address of the 32-bit configuration. -/
theorem address_round_trip (w : PtrWidth) (p : Nat) (hp : p < 2 ^ w.bits) :
    DecodeIntegerToPointer w (EncodePointerToInteger w p).1 (EncodePointerToInteger w p).2 = p := by
  cases w with
  | bits64 =>
    simp only [PtrWidth.bits] at hp
    simp only [DecodeIntegerToPointer, EncodePointerToInteger, toUInt32_toInt32]
    omega
  | bits32 =>
    simp only [PtrWidth.bits] at hp
    simp only [DecodeIntegerToPointer, EncodePointerToInteger, toUInt32_toInt32]
    omega

/-- Witness of C5 at the largest 64-bit address. -/
theorem address_round_trip_witness :
    DecodeIntegerToPointer PtrWidth.bits64
      (EncodePointerToInteger PtrWidth.bits64 (2 ^ 64 - 1)).1
      (EncodePointerToInteger PtrWidth.bits64 (2 ^ 64 - 1)).2 = 2 ^ 64 - 1 :=
  address_round_trip PtrWidth.bits64 (2 ^ 64 - 1) (by decide)

theorem getD_set_eq {α : Type} (l : List α) (i j : Nat) (v d : α) :
    (l.set j v).getD i d = if j = i ∧ i < l.length then v else l.getD i d := by
  simp only [List.getD_eq_getElem?_getD, List.getElem?_set]
  by_cases hji : j = i
  · subst hji
    by_cases hl : j < l.length
    · simp [hl]
    · simp [hl, List.getElem?_eq_none (not_lt.mp hl)]
  · simp [hji]

theorem DoCalc_of_valid (cfg : Config) (env : Env) (st : State) (t dt : fmi2Real)
    (hsize : 0 < input_size cfg st) (ht : t.gt start_check_in_s = true) :
    ∃ m : Finset String,
      DoCalc cfg env st t dt =
        (fmi2Status.fmi2OK,
          SetFmiCount cfg
            (SetFmiValid cfg
              (SetFmiSensorDataOut cfg env { st with missing_fields_ := m }
                (parsed_input cfg env st).2) 1)
            (parsed_input cfg env st).2.moving_object_size) := by
  unfold DoCalc
  simp only [GetFmiSensorDataIn_of_pos cfg env st hsize, ht, Bool.and_self, if_true]
  split
  · exact ⟨_, rfl⟩
  · split
    · exact ⟨_, rfl⟩
    · exact ⟨st.missing_fields_, rfl⟩

theorem DoCalc_of_invalid (cfg : Config) (env : Env) (st : State) (t dt : fmi2Real)
    (h : input_size cfg st ≤ 0 ∨ t.gt start_check_in_s = false) :
    DoCalc cfg env st t dt =
      (fmi2Status.fmi2OK, SetFmiCount cfg (SetFmiValid cfg (ResetFmiSensorDataOut cfg st) 0) 0) := by
  unfold DoCalc
  rcases h with h | h
  · simp [GetFmiSensorDataIn_of_nonpos cfg env st h]
  · simp [h]

/-- The output fields after a step that takes the no-input branch. -/
theorem DoCalc_invalid_outputs (cfg : Config) (env : Env) (st : State) (t dt : fmi2Real)
    (h : input_size cfg st ≤ 0 ∨ t.gt start_check_in_s = false)
    (hs : cfg.FMI_INTEGER_SENSORDATA_OUT_SIZE_IDX < st.integer_vars_.length)
    (hh : cfg.FMI_INTEGER_SENSORDATA_OUT_BASEHI_IDX < st.integer_vars_.length)
    (hl : cfg.FMI_INTEGER_SENSORDATA_OUT_BASELO_IDX < st.integer_vars_.length) :
    (DoCalc cfg env st t dt).2.integer_var cfg.FMI_INTEGER_SENSORDATA_OUT_SIZE_IDX = 0
      ∧ (DoCalc cfg env st t dt).2.integer_var cfg.FMI_INTEGER_SENSORDATA_OUT_BASEHI_IDX = 0
      ∧ (DoCalc cfg env st t dt).2.integer_var cfg.FMI_INTEGER_SENSORDATA_OUT_BASELO_IDX = 0 := by
  rw [DoCalc_of_invalid cfg env st t dt h]
  simp only [SetFmiCount, SetFmiValid, ResetFmiSensorDataOut, State.set_integer,
    State.integer_var, getD_set_eq, List.length_set]
  refine ⟨?_, ?_, ?_⟩ <;> (repeat' split) <;> simp_all

@[simp] theorem heap_store_heap_same (st : State) (s : Slot) (bytes : List UInt8) :
    (st.heap_store s bytes).heap s = bytes := by
  cases s <;> rfl

theorem heap_store_heap_other (st : State) (s s2 : Slot) (bytes : List UInt8) (h : s2 ≠ s) :
    (st.heap_store s bytes).heap s2 = st.heap s2 := by
  cases s <;> cases s2 <;> first | rfl | exact absurd rfl h

@[simp] theorem heap_store_current (st : State) (s : Slot) (bytes : List UInt8) :
    (st.heap_store s bytes).current_output_buffer_ = st.current_output_buffer_ := by
  cases s <;> rfl

@[simp] theorem heap_store_last (st : State) (s : Slot) (bytes : List UInt8) :
    (st.heap_store s bytes).last_output_buffer_ = st.last_output_buffer_ := by
  cases s <;> rfl

@[simp] theorem heap_store_integer_vars (st : State) (s : Slot) (bytes : List UInt8) :
    (st.heap_store s bytes).integer_vars_ = st.integer_vars_ := by
  cases s <;> rfl

@[simp] theorem set_integer_heap (st : State) (i : Nat) (v : fmi2Integer) (s : Slot) :
    (st.set_integer i v).heap s = st.heap s := by
  cases s <;> rfl

@[simp] theorem SetFmiValid_heap (cfg : Config) (st : State) (v : fmi2Boolean) (s : Slot) :
    (SetFmiValid cfg st v).heap s = st.heap s := by
  cases s <;> rfl

@[simp] theorem SetFmiCount_heap (cfg : Config) (st : State) (v : fmi2Integer) (s : Slot) :
    (SetFmiCount cfg st v).heap s = st.heap s := by
  cases s <;> rfl

@[simp] theorem with_missing_heap (st : State) (m : Finset String) (s : Slot) :
    ({ st with missing_fields_ := m } : State).heap s = st.heap s := by
  cases s <;> rfl

theorem SetFmiSensorDataOut_heap (cfg : Config) (env : Env) (st : State) (d : SensorData)
    (s : Slot) :
    (SetFmiSensorDataOut cfg env st d).heap s
      = (st.heap_store st.current_output_buffer_ (env.SerializeToString d)).heap s := by
  cases s <;> rfl

theorem SetFmiSensorDataOut_heap_current (cfg : Config) (env : Env) (st : State)
    (d : SensorData) :
    (SetFmiSensorDataOut cfg env st d).heap st.current_output_buffer_
      = env.SerializeToString d := by
  rw [SetFmiSensorDataOut_heap, heap_store_heap_same]

theorem SetFmiSensorDataOut_heap_other (cfg : Config) (env : Env) (st : State)
    (d : SensorData) (s : Slot) (h : s ≠ st.current_output_buffer_) :
    (SetFmiSensorDataOut cfg env st d).heap s = st.heap s := by
  rw [SetFmiSensorDataOut_heap, heap_store_heap_other _ _ _ _ h]

@[simp] theorem SetFmiSensorDataOut_current (cfg : Config) (env : Env) (st : State)
    (d : SensorData) :
    (SetFmiSensorDataOut cfg env st d).current_output_buffer_ = st.last_output_buffer_ := by
  simp [SetFmiSensorDataOut, State.set_integer]

@[simp] theorem SetFmiSensorDataOut_last (cfg : Config) (env : Env) (st : State)
    (d : SensorData) :
    (SetFmiSensorDataOut cfg env st d).last_output_buffer_ = st.current_output_buffer_ := by
  simp [SetFmiSensorDataOut, State.set_integer]

/-- C10: a step executed while the input size field is zero or negative returns OK and leaves
the output size field and both output address fields equal to 0, whatever they held before. -/
theorem DoCalc_no_input_resets_output (cfg : Config) (env : Env) (st : State) (t dt : fmi2Real)
    (hcfg : cfg.WF) (hst : st.WF cfg) (hsize : input_size cfg st ≤ 0) :
    (DoCalc cfg env st t dt).1 = fmi2Status.fmi2OK
      ∧ (DoCalc cfg env st t dt).2.integer_var cfg.FMI_INTEGER_SENSORDATA_OUT_SIZE_IDX = 0
      ∧ (DoCalc cfg env st t dt).2.integer_var cfg.FMI_INTEGER_SENSORDATA_OUT_BASEHI_IDX = 0
      ∧ (DoCalc cfg env st t dt).2.integer_var cfg.FMI_INTEGER_SENSORDATA_OUT_BASELO_IDX = 0 := by
  obtain ⟨_, _, _, _, hlo, hhi, hsz, _⟩ := hcfg
  obtain ⟨_, hlen, _⟩ := hst
  refine ⟨by rw [DoCalc_of_invalid cfg env st t dt (Or.inl hsize)], ?_⟩
  exact DoCalc_invalid_outputs cfg env st t dt (Or.inl hsize) (by omega) (by omega) (by omega)

theorem sample_config_WF : sample_config.WF := by
  unfold Config.WF sample_config
  decide

theorem sample_state_WF (E : Finset String) : (sample_state E).WF sample_config := by
  exact ⟨rfl, rfl, rfl, rfl, fun h => Slot.noConfusion h⟩

theorem sample_state_no_input_WF : sample_state_no_input.WF sample_config := by
  unfold State.WF sample_state_no_input sample_config
  decide

/-- Witness of C10: the output fields held a size and an address before the step. -/
theorem DoCalc_no_input_resets_output_witness :
    (DoCalc sample_config (sample_env true sample_message) sample_state_no_input
        (Double.finite 1) (Double.finite 1)).1 = fmi2Status.fmi2OK
      ∧ (DoCalc sample_config (sample_env true sample_message) sample_state_no_input
          (Double.finite 1) (Double.finite 1)).2.integer_var
            sample_config.FMI_INTEGER_SENSORDATA_OUT_SIZE_IDX = 0
      ∧ (DoCalc sample_config (sample_env true sample_message) sample_state_no_input
          (Double.finite 1) (Double.finite 1)).2.integer_var
            sample_config.FMI_INTEGER_SENSORDATA_OUT_BASEHI_IDX = 0
      ∧ (DoCalc sample_config (sample_env true sample_message) sample_state_no_input
          (Double.finite 1) (Double.finite 1)).2.integer_var
            sample_config.FMI_INTEGER_SENSORDATA_OUT_BASELO_IDX = 0 :=
  DoCalc_no_input_resets_output sample_config (sample_env true sample_message)
    sample_state_no_input (Double.finite 1) (Double.finite 1) sample_config_WF
    sample_state_no_input_WF (by decide)

/-- C4 (as stated) fails: a buffer of positive size that does not parse is still checked and
published. With `"moving_object"` expected and a parser that fails leaving an empty message,
the step adds `"moving_object"` to the missing set and writes a non-zero output address. -/
theorem DoCalc_unparsable_input_counterexample :
    0 < input_size sample_config (sample_state {"moving_object"})
      ∧ (parsed_input sample_config (sample_env false SensorData.empty)
          (sample_state {"moving_object"})).1 = false
      ∧ (DoCalc sample_config (sample_env false SensorData.empty)
          (sample_state {"moving_object"}) (Double.finite 1)
          (Double.finite 1)).2.missing_fields_ = {"moving_object"}
      ∧ (DoCalc sample_config (sample_env false SensorData.empty)
          (sample_state {"moving_object"}) (Double.finite 1)
          (Double.finite 1)).2.missing_fields_ ≠ (sample_state {"moving_object"}).missing_fields_
      ∧ (DoCalc sample_config (sample_env false SensorData.empty)
          (sample_state {"moving_object"}) (Double.finite 1)
          (Double.finite 1)).2.integer_var sample_config.FMI_INTEGER_SENSORDATA_OUT_BASELO_IDX
            = 4096 := by
  have hsize : 0 < input_size sample_config (sample_state {"moving_object"}) := by
    rw [sample_input_size]; decide
  have hres : (DoCalc sample_config (sample_env false SensorData.empty)
      (sample_state {"moving_object"}) (Double.finite 1)
      (Double.finite 1)).2.missing_fields_ = {"moving_object"} := by
    rw [DoCalc_missing_of_valid _ _ _ _ _ hsize sample_time_gt]
    simp [sample_state, parsed_input, sample_env, SensorData.empty]
  refine ⟨hsize, rfl, hres, ?_, ?_⟩
  · rw [hres]
    exact Finset.singleton_ne_empty _
  · obtain ⟨m, hm⟩ := DoCalc_of_valid sample_config (sample_env false SensorData.empty)
      (sample_state {"moving_object"}) (Double.finite 1) (Double.finite 1) hsize sample_time_gt
    rw [hm]
    rfl

/-- C4 (amended): a step whose input buffer has size > 0 but fails to parse, the parser
leaving the content `d` behind, behaves exactly as a step whose buffer parses successfully to
`d`: the success flag is not consulted. With communication point > 0.5 the step checks `d`
as a valid step does (the violated rule-table paths are added when `d` has a moving object
and `"moving_object"` is expected, `"moving_object"` is added when `d` has none and the path
is expected, nothing is added when `"moving_object"` is not expected) and publishes the
serialization of `d` into the current buffer, which becomes the retained one. With
communication point not > 0.5 the step is the no-input branch: the missing set is unchanged
and the output is reset. -/
theorem DoCalc_unparsable_input_is_checked (cfg : Config) (env : Env) (st : State)
    (t dt : fmi2Real) (d : SensorData) (hsize : 0 < input_size cfg st)
    (hfail : parsed_input cfg env st = (false, d)) :
    DoCalc cfg env st t dt
        = DoCalc cfg { env with ParseFromArray := fun _ _ => (true, d) } st t dt
      ∧ (t.gt start_check_in_s = true →
          (DoCalc cfg env st t dt).2.missing_fields_ =
              (if d.moving_object ≠ [] ∧ "moving_object" ∈ st.expected_osi_fields_
                then (CheckMovingObjects st d t).missing_fields_
                else if "moving_object" ∈ st.expected_osi_fields_
                then insert "moving_object" st.missing_fields_
                else st.missing_fields_)
            ∧ (DoCalc cfg env st t dt).2.heap st.current_output_buffer_
                = env.SerializeToString d
            ∧ (DoCalc cfg env st t dt).2.last_output_buffer_ = st.current_output_buffer_)
      ∧ (t.gt start_check_in_s = false →
          (DoCalc cfg env st t dt).2.missing_fields_ = st.missing_fields_
            ∧ DoCalc cfg env st t dt
                = (fmi2Status.fmi2OK,
                    SetFmiCount cfg (SetFmiValid cfg (ResetFmiSensorDataOut cfg st) 0) 0)
            ∧ (cfg.WF → st.WF cfg →
                (DoCalc cfg env st t dt).2.integer_var
                    cfg.FMI_INTEGER_SENSORDATA_OUT_SIZE_IDX = 0
                  ∧ (DoCalc cfg env st t dt).2.integer_var
                      cfg.FMI_INTEGER_SENSORDATA_OUT_BASEHI_IDX = 0
                  ∧ (DoCalc cfg env st t dt).2.integer_var
                      cfg.FMI_INTEGER_SENSORDATA_OUT_BASELO_IDX = 0)) := by
  have hd : (parsed_input cfg env st).2 = d := by rw [hfail]
  refine ⟨?_, ?_, ?_⟩
  · unfold DoCalc
    rw [GetFmiSensorDataIn_of_pos cfg env st hsize, GetFmiSensorDataIn_of_pos cfg _ st hsize, hd]
    rfl
  · intro ht
    refine ⟨?_, ?_, ?_⟩
    · rw [DoCalc_missing_of_valid cfg env st t dt hsize ht, hd]
    · obtain ⟨m, hm⟩ := DoCalc_of_valid cfg env st t dt hsize ht
      rw [hm, hd]
      simp only [SetFmiCount_heap, SetFmiValid_heap]
      exact SetFmiSensorDataOut_heap_current cfg env { st with missing_fields_ := m } _
    · obtain ⟨m, hm⟩ := DoCalc_of_valid cfg env st t dt hsize ht
      rw [hm]
      simp [SetFmiCount, SetFmiValid, State.set_integer]
  · intro ht
    refine ⟨DoCalc_missing_of_invalid cfg env st t dt (Or.inr ht),
      DoCalc_of_invalid cfg env st t dt (Or.inr ht), fun hcfg hst => ?_⟩
    obtain ⟨_, _, _, _, hlo, hhi, hsz, _⟩ := hcfg
    obtain ⟨_, hlen, _⟩ := hst
    exact DoCalc_invalid_outputs cfg env st t dt (Or.inr ht) (by omega) (by omega) (by omega)

/-- Witness of C4 (amended): the failing parse of the counterexample, checked and published. -/
theorem DoCalc_unparsable_input_is_checked_witness :
    DoCalc sample_config (sample_env false SensorData.empty) (sample_state {"moving_object"})
        (Double.finite 1) (Double.finite 1)
      = DoCalc sample_config
          { sample_env false SensorData.empty with
            ParseFromArray := fun _ _ => (true, SensorData.empty) }
          (sample_state {"moving_object"}) (Double.finite 1) (Double.finite 1) :=
  (DoCalc_unparsable_input_is_checked sample_config (sample_env false SensorData.empty)
    (sample_state {"moving_object"}) (Double.finite 1) (Double.finite 1) SensorData.empty
    (by rw [sample_input_size]; decide) rfl).1

theorem DoCalc_missing_superset (cfg : Config) (env : Env) (st : State) (t dt : fmi2Real) :
    st.missing_fields_ ⊆ (DoCalc cfg env st t dt).2.missing_fields_ := by
  by_cases hs : 0 < input_size cfg st
  · cases ht : t.gt start_check_in_s
    · rw [DoCalc_missing_of_invalid cfg env st t dt (Or.inr ht)]
    · rw [DoCalc_missing_of_valid cfg env st t dt hs ht]
      split
      · rw [CheckMovingObjects_missing]
        exact Finset.subset_union_left
      · split
        · exact Finset.subset_insert _ _
        · exact Finset.Subset.refl _
  · rw [DoCalc_missing_of_invalid cfg env st t dt (Or.inl (not_lt.mp hs))]

theorem ExitInitializationMode_missing (cfg : Config) (env : Env) (st : State) :
    (ExitInitializationMode cfg env st).2.missing_fields_ = st.missing_fields_ := by
  unfold ExitInitializationMode DoExitInitializationMode
  split <;> rfl

theorem Op_run_missing_superset (cfg : Config) (op : Op) (st : State) :
    st.missing_fields_ ⊆ (op.run cfg st).missing_fields_ := by
  cases op with
  | doStep env t dt flag => exact DoCalc_missing_superset cfg env st t dt
  | exitInitializationMode env =>
    show st.missing_fields_ ⊆ (ExitInitializationMode cfg env st).2.missing_fields_
    rw [ExitInitializationMode_missing]
  | _ => exact Finset.Subset.refl _

theorem run_all_missing_superset (cfg : Config) (ops : List Op) (st : State) :
    st.missing_fields_ ⊆ (run_all cfg ops st).missing_fields_ := by
  induction ops generalizing st with
  | nil => exact Finset.Subset.refl _
  | cons op ops ih =>
    exact Finset.Subset.trans (Op_run_missing_superset cfg op st) (ih (op.run cfg st))

theorem run_all_append (cfg : Config) (ops1 ops2 : List Op) (st : State) :
    run_all cfg (ops1 ++ ops2) st = run_all cfg ops2 (run_all cfg ops1 st) := by
  simp [run_all, List.foldl_append]

theorem sample_step_empty_missing (ok : Bool) :
    (DoCalc sample_config (sample_env ok SensorData.empty) (sample_state {"moving_object"})
      (Double.finite 1) (Double.finite 1)).2.missing_fields_ = {"moving_object"} := by
  rw [DoCalc_missing_of_valid _ _ _ _ _ (by rw [sample_input_size]; decide) sample_time_gt]
  simp [sample_state, parsed_input, sample_env, SensorData.empty]

/-- C6: every operation of the component (a step with any input and time,
`ExitInitializationMode`, `EnterInitializationMode`, `Reset`, `Terminate`, every scalar get
and set) leaves the missing set a superset of what it was; hence over any sequence of
operations a path that is in the set at some point is still in it at the end, and the
enumeration of the final set lists it exactly once. -/
theorem missing_fields_monotone (cfg : Config) :
    (∀ (op : Op) (st : State), st.missing_fields_ ⊆ (op.run cfg st).missing_fields_)
      ∧ (∀ (ops : List Op) (st : State),
          st.missing_fields_ ⊆ (run_all cfg ops st).missing_fields_)
      ∧ (∀ (ops1 ops2 : List Op) (st : State) (p : String),
          p ∈ (run_all cfg ops1 st).missing_fields_ →
            p ∈ (run_all cfg (ops1 ++ ops2) st).missing_fields_
              ∧ (((run_all cfg (ops1 ++ ops2) st).missing_fields_.sort
                  (fun a b => a ≤ b)).count p = 1)) := by
  refine ⟨Op_run_missing_superset cfg, run_all_missing_superset cfg, ?_⟩
  intro ops1 ops2 st p hp
  have hmem : p ∈ (run_all cfg (ops1 ++ ops2) st).missing_fields_ := by
    rw [run_all_append]
    exact run_all_missing_superset cfg ops2 _ hp
  exact ⟨hmem, List.count_eq_one_of_mem (Finset.sort_nodup _ _) ((Finset.mem_sort _).mpr hmem)⟩

/-- Witness of C6: the first and the third step miss `"moving_object"`, the second does not;
the path is in the final set, once. -/
theorem missing_fields_monotone_witness :
    "moving_object" ∈ (run_all sample_config
        ([Op.doStep (sample_env true SensorData.empty) (Double.finite 1) (Double.finite 1) 1]
          ++ [Op.doStep (sample_env true sample_message) (Double.finite 2) (Double.finite 1) 1,
              Op.doStep (sample_env true SensorData.empty) (Double.finite 3) (Double.finite 1) 1])
        (sample_state {"moving_object"})).missing_fields_
      ∧ ((run_all sample_config
        ([Op.doStep (sample_env true SensorData.empty) (Double.finite 1) (Double.finite 1) 1]
          ++ [Op.doStep (sample_env true sample_message) (Double.finite 2) (Double.finite 1) 1,
              Op.doStep (sample_env true SensorData.empty) (Double.finite 3) (Double.finite 1) 1])
        (sample_state {"moving_object"})).missing_fields_.sort (fun a b => a ≤ b)).count
          "moving_object" = 1 :=
  (missing_fields_monotone sample_config).2.2
    [Op.doStep (sample_env true SensorData.empty) (Double.finite 1) (Double.finite 1) 1]
    [Op.doStep (sample_env true sample_message) (Double.finite 2) (Double.finite 1) 1,
      Op.doStep (sample_env true SensorData.empty) (Double.finite 3) (Double.finite 1) 1]
    (sample_state {"moving_object"}) "moving_object"
    (by
      show "moving_object" ∈ (DoCalc sample_config (sample_env true SensorData.empty)
        (sample_state {"moving_object"}) (Double.finite 1) (Double.finite 1)).2.missing_fields_
      rw [sample_step_empty_missing]
      exact Finset.mem_singleton_self _)

theorem ResetFmiSensorDataOut_heap (cfg : Config) (st : State) (s : Slot) :
    (ResetFmiSensorDataOut cfg st).heap s = st.heap s := by
  cases s <;> rfl

theorem DoCalc_invalid_heap (cfg : Config) (env : Env) (st : State) (t dt : fmi2Real)
    (h : input_size cfg st ≤ 0 ∨ t.gt start_check_in_s = false) (s : Slot) :
    (DoCalc cfg env st t dt).2.heap s = st.heap s := by
  rw [DoCalc_of_invalid cfg env st t dt h]
  cases s <;> rfl

theorem ExitInitializationMode_heap (cfg : Config) (env : Env) (st : State) (s : Slot) :
    (ExitInitializationMode cfg env st).2.heap s = st.heap s := by
  unfold ExitInitializationMode DoExitInitializationMode
  split <;> cases s <;> rfl

theorem Op_run_heap (cfg : Config) (op : Op) (st : State)
    (h : op.is_valid_step cfg st = false) (s : Slot) :
    (op.run cfg st).heap s = st.heap s := by
  cases op with
  | doStep env t dt flag =>
    have h2 : input_size cfg st ≤ 0 ∨ t.gt start_check_in_s = false := by
      simp only [Op.is_valid_step, Bool.and_eq_false_iff, decide_eq_false_iff_not, not_lt] at h
      exact h
    exact DoCalc_invalid_heap cfg env st t dt h2 s
  | exitInitializationMode env => exact ExitInitializationMode_heap cfg env st s
  | _ => cases s <;> rfl

/-- C7: with the two owned buffers as two slots, after two successive calls of
`SetFmiSensorDataOut` the slot published by the first call still holds exactly the
serialization of the first message (the second call wrote the other slot), its address is the
one handed out, and it is the slot a third call writes next; `ResetFmiSensorDataOut` and every
operation other than a step with valid input leave both slots as they are. -/
theorem output_buffer_survives (cfg : Config) (env : Env) (st : State) (m1 m2 : SensorData)
    (hne : st.current_output_buffer_ ≠ st.last_output_buffer_) :
    (SetFmiSensorDataOut cfg env st m1).heap st.current_output_buffer_
        = env.SerializeToString m1
      ∧ (SetFmiSensorDataOut cfg env st m1).last_output_buffer_ = st.current_output_buffer_
      ∧ (SetFmiSensorDataOut cfg env (SetFmiSensorDataOut cfg env st m1) m2).heap
          st.current_output_buffer_ = env.SerializeToString m1
      ∧ (SetFmiSensorDataOut cfg env (SetFmiSensorDataOut cfg env st m1) m2).heap
          st.last_output_buffer_ = env.SerializeToString m2
      ∧ env.data st.current_output_buffer_
          ((SetFmiSensorDataOut cfg env (SetFmiSensorDataOut cfg env st m1) m2).heap
            st.current_output_buffer_)
          = env.data st.current_output_buffer_
              ((SetFmiSensorDataOut cfg env st m1).heap st.current_output_buffer_)
      ∧ (SetFmiSensorDataOut cfg env (SetFmiSensorDataOut cfg env st m1) m2).current_output_buffer_
          = st.current_output_buffer_
      ∧ (∀ m3 : SensorData,
          (SetFmiSensorDataOut cfg env
            (SetFmiSensorDataOut cfg env (SetFmiSensorDataOut cfg env st m1) m2) m3).heap
              st.current_output_buffer_ = env.SerializeToString m3)
      ∧ (∀ (st2 : State) (s : Slot), (ResetFmiSensorDataOut cfg st2).heap s = st2.heap s)
      ∧ (∀ (op : Op) (st2 : State) (s : Slot), op.is_valid_step cfg st2 = false →
          (op.run cfg st2).heap s = st2.heap s) := by
  have h1 := SetFmiSensorDataOut_heap_current cfg env st m1
  have hcur1 : (SetFmiSensorDataOut cfg env st m1).current_output_buffer_
      = st.last_output_buffer_ := SetFmiSensorDataOut_current cfg env st m1
  have h2 : (SetFmiSensorDataOut cfg env (SetFmiSensorDataOut cfg env st m1) m2).heap
      st.current_output_buffer_ = env.SerializeToString m1 := by
    rw [SetFmiSensorDataOut_heap_other _ _ _ _ _ (by rw [hcur1]; exact hne), h1]
  have hcur2 : (SetFmiSensorDataOut cfg env (SetFmiSensorDataOut cfg env st m1) m2).current_output_buffer_
      = st.current_output_buffer_ := by
    rw [SetFmiSensorDataOut_current, SetFmiSensorDataOut_last]
  refine ⟨h1, SetFmiSensorDataOut_last cfg env st m1, h2, ?_, by rw [h2, h1], hcur2, ?_,
    fun st2 s => ResetFmiSensorDataOut_heap cfg st2 s,
    fun op st2 s h => Op_run_heap cfg op st2 h s⟩
  · have := SetFmiSensorDataOut_heap_current cfg env (SetFmiSensorDataOut cfg env st m1) m2
    rw [hcur1] at this
    exact this
  · intro m3
    have := SetFmiSensorDataOut_heap_current cfg env
      (SetFmiSensorDataOut cfg env (SetFmiSensorDataOut cfg env st m1) m2) m3
    rw [hcur2] at this
    exact this

/-- Witness of C7 on the sample state, publishing a one-object and then an empty message. -/
theorem output_buffer_survives_witness :
    (SetFmiSensorDataOut sample_config (sample_env true sample_message)
        (SetFmiSensorDataOut sample_config (sample_env true sample_message)
          (sample_state {"moving_object"}) sample_message) SensorData.empty).heap
        (sample_state {"moving_object"}).current_output_buffer_
      = (sample_env true sample_message).SerializeToString sample_message :=
  (output_buffer_survives sample_config (sample_env true sample_message)
    (sample_state {"moving_object"}) sample_message SensorData.empty
    (fun h => Slot.noConfusion h)).2.2.1

theorem foldl_range_succ_shift {β : Type} (f : β → Nat → β) (k : Nat) (b : β) :
    (List.range (k + 1)).foldl f b = (List.range k).foldl (fun acc j => f acc (j + 1)) (f b 0) := by
  rw [List.range_succ_eq_map, List.foldl_cons, List.foldl_map]

/-- The loop of the setters started at index `i`: it stops at the first out-of-range
reference and has applied the writes before it. -/
theorem set_loop_spec {α : Type} (capacity : Nat) (vr : Nat → fmi2ValueReference)
    (value : Nat → α) (n i : Nat) (vars : List α) :
    ∃ k, k ≤ n ∧ (∀ j, j < k → vr (i + j) < capacity) ∧ (k < n → capacity ≤ vr (i + k))
      ∧ set_loop capacity vr value n i vars
          = (if k < n then fmi2Status.fmi2Error else fmi2Status.fmi2OK,
              (List.range k).foldl (fun acc j => acc.set (vr (i + j)) (value (i + j))) vars) := by
  induction n generalizing i vars with
  | zero => exact ⟨0, le_refl _, fun j hj => absurd hj (Nat.not_lt_zero _), fun h => absurd h (Nat.lt_irrefl _), rfl⟩
  | succ n ih =>
    by_cases h : vr i < capacity
    · obtain ⟨k, hk, hlt, hge, heq⟩ := ih (i + 1) (vars.set (vr i) (value i))
      refine ⟨k + 1, Nat.succ_le_succ hk, ?_, ?_, ?_⟩
      · intro j hj
        cases j with
        | zero => simpa using h
        | succ j =>
          have := hlt j (by omega)
          rwa [show i + (j + 1) = i + 1 + j by omega]
      · intro hk2
        have := hge (by omega)
        rwa [show i + (k + 1) = i + 1 + k by omega]
      · rw [set_loop, if_pos h, heq, foldl_range_succ_shift]
        have e : ∀ j, i + 1 + j = i + (j + 1) := fun j => by omega
        simp only [e, Nat.add_zero, Nat.add_lt_add_iff_right]
    · refine ⟨0, Nat.zero_le _, fun j hj => absurd hj (Nat.not_lt_zero _), fun _ => ?_, ?_⟩
      · simpa using not_lt.mp h
      · rw [set_loop, if_neg h]
        simp

theorem set_loop_zero_spec {α : Type} (capacity : Nat) (vr : Nat → fmi2ValueReference)
    (value : Nat → α) (nvr : Nat) (vars : List α) :
    ∃ k, k ≤ nvr ∧ (∀ j, j < k → vr j < capacity) ∧ (k < nvr → capacity ≤ vr k)
      ∧ ((set_loop capacity vr value nvr 0 vars).1 = fmi2Status.fmi2Error
          ↔ ∃ j, j < nvr ∧ capacity ≤ vr j)
      ∧ ((set_loop capacity vr value nvr 0 vars).1 = fmi2Status.fmi2OK
          ∨ (set_loop capacity vr value nvr 0 vars).1 = fmi2Status.fmi2Error)
      ∧ (set_loop capacity vr value nvr 0 vars).2 = apply_writes vr value k vars := by
  obtain ⟨k, hk, hlt, hge, heq⟩ := set_loop_spec capacity vr value nvr 0 vars
  simp only [Nat.zero_add] at hlt hge heq
  refine ⟨k, hk, hlt, hge, ?_, ?_, ?_⟩
  · rw [heq]
    constructor
    · intro he
      by_cases hkn : k < nvr
      · exact ⟨k, hkn, hge hkn⟩
      · simp [hkn] at he
    · rintro ⟨j, hj, hcap⟩
      have hkn : k < nvr := by
        by_contra hc
        have hjk : j < k := by omega
        exact absurd (hlt j hjk) (not_lt.mpr hcap)
      simp [hkn]
  · rw [heq]
    by_cases hkn : k < nvr <;> simp [hkn]
  · rw [heq]
    rfl

/-- C8: for each kind, a batch set returns `fmi2Error` exactly when some reference is at or
beyond the capacity, and in every case the resulting store is the original store with the
writes `vr[j] := value[j]` for `j < k` applied in order to the array of that kind, `k` being
the position of the first out-of-range reference (`nvr` if there is none); no later write is
applied, the arrays of the other three kinds are unchanged, and so is every other member. -/
theorem batch_set_stops_at_first_out_of_range (cfg : Config) (st : State)
    (vr : Nat → fmi2ValueReference) (nvr : Nat) :
    (∀ value : Nat → fmi2Real,
        batch_set_spec cfg.FMI_REAL_VARS vr value nvr st.real_vars_
          (SetReal cfg st vr nvr value).1 (SetReal cfg st vr nvr value).2.real_vars_
        ∧ (SetReal cfg st vr nvr value).2.integer_vars_ = st.integer_vars_
        ∧ (SetReal cfg st vr nvr value).2.boolean_vars_ = st.boolean_vars_
        ∧ (SetReal cfg st vr nvr value).2.string_vars_ = st.string_vars_
        ∧ (SetReal cfg st vr nvr value).2
            = { st with real_vars_ := (SetReal cfg st vr nvr value).2.real_vars_ })
      ∧ (∀ value : Nat → fmi2Integer,
        batch_set_spec cfg.FMI_INTEGER_VARS vr value nvr st.integer_vars_
          (SetInteger cfg st vr nvr value).1 (SetInteger cfg st vr nvr value).2.integer_vars_
        ∧ (SetInteger cfg st vr nvr value).2.real_vars_ = st.real_vars_
        ∧ (SetInteger cfg st vr nvr value).2.boolean_vars_ = st.boolean_vars_
        ∧ (SetInteger cfg st vr nvr value).2.string_vars_ = st.string_vars_
        ∧ (SetInteger cfg st vr nvr value).2
            = { st with integer_vars_ := (SetInteger cfg st vr nvr value).2.integer_vars_ })
      ∧ (∀ value : Nat → fmi2Boolean,
        batch_set_spec cfg.FMI_BOOLEAN_VARS vr value nvr st.boolean_vars_
          (SetBoolean cfg st vr nvr value).1 (SetBoolean cfg st vr nvr value).2.boolean_vars_
        ∧ (SetBoolean cfg st vr nvr value).2.real_vars_ = st.real_vars_
        ∧ (SetBoolean cfg st vr nvr value).2.integer_vars_ = st.integer_vars_
        ∧ (SetBoolean cfg st vr nvr value).2.string_vars_ = st.string_vars_
        ∧ (SetBoolean cfg st vr nvr value).2
            = { st with boolean_vars_ := (SetBoolean cfg st vr nvr value).2.boolean_vars_ })
      ∧ (∀ value : Nat → String,
        batch_set_spec cfg.FMI_STRING_VARS vr value nvr st.string_vars_
          (SetString cfg st vr nvr value).1 (SetString cfg st vr nvr value).2.string_vars_
        ∧ (SetString cfg st vr nvr value).2.real_vars_ = st.real_vars_
        ∧ (SetString cfg st vr nvr value).2.integer_vars_ = st.integer_vars_
        ∧ (SetString cfg st vr nvr value).2.boolean_vars_ = st.boolean_vars_
        ∧ (SetString cfg st vr nvr value).2
            = { st with string_vars_ := (SetString cfg st vr nvr value).2.string_vars_ }) :=
  ⟨fun value => ⟨set_loop_zero_spec cfg.FMI_REAL_VARS vr value nvr st.real_vars_,
      rfl, rfl, rfl, rfl⟩,
    fun value => ⟨set_loop_zero_spec cfg.FMI_INTEGER_VARS vr value nvr st.integer_vars_,
      rfl, rfl, rfl, rfl⟩,
    fun value => ⟨set_loop_zero_spec cfg.FMI_BOOLEAN_VARS vr value nvr st.boolean_vars_,
      rfl, rfl, rfl, rfl⟩,
    fun value => ⟨set_loop_zero_spec cfg.FMI_STRING_VARS vr value nvr st.string_vars_,
      rfl, rfl, rfl, rfl⟩⟩

/-- Witness of C8: the batch 0, 3, 1 on three reals fails at its second reference; the
integer array is the one before the call. -/
theorem batch_set_stops_at_first_out_of_range_witness :
    (SetReal sample_wide_config sample_wide_state (fun i => if i = 0 then 0 else 4 - i) 3
        (fun _ => Double.finite 10)).2.integer_vars_ = sample_wide_state.integer_vars_ :=
  ((batch_set_stops_at_first_out_of_range sample_wide_config sample_wide_state
    (fun i => if i = 0 then 0 else 4 - i) 3).1 (fun _ => Double.finite 10)).2.1

theorem get_loop_error {α : Type} (capacity : Nat) (vr : Nat → fmi2ValueReference)
    (vars : List α) (zero : α) (n i : Nat) (out : Nat → α)
    (h : ∃ j, j < n ∧ capacity ≤ vr (i + j)) :
    (get_loop capacity vr vars zero n i out).1 = fmi2Status.fmi2Error := by
  induction n generalizing i out with
  | zero => obtain ⟨j, hj, _⟩ := h; exact absurd hj (Nat.not_lt_zero _)
  | succ n ih =>
    by_cases hi : vr i < capacity
    · rw [get_loop, if_pos hi]
      apply ih
      obtain ⟨j, hj, hcap⟩ := h
      cases j with
      | zero => exact absurd hi (not_lt.mpr (by simpa using hcap))
      | succ j => exact ⟨j, by omega, by rwa [show i + 1 + j = i + (j + 1) by omega]⟩
    · rw [get_loop, if_neg hi]

theorem get_loop_ok {α : Type} (capacity : Nat) (vr : Nat → fmi2ValueReference)
    (vars : List α) (zero : α) (n i : Nat) (out : Nat → α)
    (h : ∀ j, j < n → vr (i + j) < capacity) :
    get_loop capacity vr vars zero n i out
      = (fmi2Status.fmi2OK,
          fun x => if i ≤ x ∧ x < i + n then vars.getD (vr x) zero else out x) := by
  induction n generalizing i out with
  | zero =>
    rw [get_loop]
    congr 1
    funext x
    have : ¬ (i ≤ x ∧ x < i + 0) := by omega
    rw [if_neg this]
  | succ n ih =>
    have hi : vr i < capacity := by simpa using h 0 (Nat.succ_pos n)
    rw [get_loop, if_pos hi, ih (i + 1) _ (fun j hj => by
      have := h (j + 1) (by omega)
      rwa [show i + 1 + j = i + (j + 1) by omega])]
    congr 1
    funext x
    by_cases hx : x = i
    · subst hx
      have h1 : ¬ (x + 1 ≤ x ∧ x < x + 1 + n) := by omega
      have h2 : x ≤ x ∧ x < x + (n + 1) := by omega
      rw [if_neg h1, if_pos h2, Function.update_same]
    · rw [Function.update_noteq hx]
      by_cases hr : i + 1 ≤ x ∧ x < i + 1 + n
      · rw [if_pos hr, if_pos (by omega)]
      · rw [if_neg hr, if_neg (by omega)]

theorem get_loop_zero_spec {α : Type} (capacity : Nat) (vr : Nat → fmi2ValueReference)
    (vars : List α) (zero : α) (nvr : Nat) (out : Nat → α) (hlen : vars.length = capacity) :
    batch_get_spec capacity vr nvr vars (get_loop capacity vr vars zero nvr 0 out).1
      (get_loop capacity vr vars zero nvr 0 out).2 := by
  constructor
  · rintro ⟨j, hj, hcap⟩
    exact get_loop_error capacity vr vars zero nvr 0 out ⟨j, hj, by simpa using hcap⟩
  · intro hall
    rw [get_loop_ok capacity vr vars zero nvr 0 out (fun j hj => by simpa using hall j hj)]
    refine ⟨rfl, fun j hj => ?_⟩
    have hlt : vr j < vars.length := by rw [hlen]; exact hall j hj
    simp only [Nat.zero_le, Nat.zero_add, true_and, if_pos hj]
    rw [List.getD_eq_getElem?_getD, List.getElem?_eq_getElem hlt]
    rfl

/-- C9: for each kind, a batch get that contains a reference at or beyond the capacity returns
`fmi2Error`, a batch get whose references are all in range returns `fmi2OK` with `value[j]`
equal to slot `vr[j]`, and in both cases the state, hence all four arrays, is unchanged. -/
theorem batch_get_checks_range (cfg : Config) (st : State) (hst : st.WF cfg)
    (vr : Nat → fmi2ValueReference) (nvr : Nat) :
    (∀ value : Nat → fmi2Real,
        batch_get_spec cfg.FMI_REAL_VARS vr nvr st.real_vars_
          (GetReal cfg st vr nvr value).1 (GetReal cfg st vr nvr value).2.2
        ∧ (GetReal cfg st vr nvr value).2.1 = st)
      ∧ (∀ value : Nat → fmi2Integer,
        batch_get_spec cfg.FMI_INTEGER_VARS vr nvr st.integer_vars_
          (GetInteger cfg st vr nvr value).1 (GetInteger cfg st vr nvr value).2.2
        ∧ (GetInteger cfg st vr nvr value).2.1 = st)
      ∧ (∀ value : Nat → fmi2Boolean,
        batch_get_spec cfg.FMI_BOOLEAN_VARS vr nvr st.boolean_vars_
          (GetBoolean cfg st vr nvr value).1 (GetBoolean cfg st vr nvr value).2.2
        ∧ (GetBoolean cfg st vr nvr value).2.1 = st)
      ∧ (∀ value : Nat → String,
        batch_get_spec cfg.FMI_STRING_VARS vr nvr st.string_vars_
          (GetString cfg st vr nvr value).1 (GetString cfg st vr nvr value).2.2
        ∧ (GetString cfg st vr nvr value).2.1 = st) := by
  obtain ⟨hr, hi, hb, hs, _⟩ := hst
  exact ⟨fun value => ⟨get_loop_zero_spec _ vr _ _ nvr value hr, rfl⟩,
    fun value => ⟨get_loop_zero_spec _ vr _ _ nvr value hi, rfl⟩,
    fun value => ⟨get_loop_zero_spec _ vr _ _ nvr value hb, rfl⟩,
    fun value => ⟨get_loop_zero_spec _ vr _ _ nvr value hs, rfl⟩⟩

/-- Witness of C9: `GetReal` with the single reference `FMI_REAL_VARS` fails and returns the
state it was given. -/
theorem batch_get_checks_range_witness :
    (GetReal sample_config (sample_state {"moving_object"})
        (fun _ => sample_config.FMI_REAL_VARS) 1 (fun _ => Double.finite 7)).1
        = fmi2Status.fmi2Error
      ∧ (GetReal sample_config (sample_state {"moving_object"})
        (fun _ => sample_config.FMI_REAL_VARS) 1 (fun _ => Double.finite 7)).2.1
        = sample_state {"moving_object"} :=
  ⟨((batch_get_checks_range sample_config (sample_state {"moving_object"})
      (sample_state_WF {"moving_object"}) (fun _ => sample_config.FMI_REAL_VARS) 1).1
      (fun _ => Double.finite 7)).1.1 ⟨0, Nat.zero_lt_one, Nat.le_refl _⟩,
    ((batch_get_checks_range sample_config (sample_state {"moving_object"})
      (sample_state_WF {"moving_object"}) (fun _ => sample_config.FMI_REAL_VARS) 1).1
      (fun _ => Double.finite 7)).2⟩

theorem DoCalc_status (cfg : Config) (env : Env) (st : State) (t dt : fmi2Real) :
    (DoCalc cfg env st t dt).1 = fmi2Status.fmi2OK := by
  by_cases hs : 0 < input_size cfg st
  · cases ht : t.gt start_check_in_s
    · rw [DoCalc_of_invalid cfg env st t dt (Or.inr ht)]
    · obtain ⟨m, hm⟩ := DoCalc_of_valid cfg env st t dt hs ht
      rw [hm]
  · rw [DoCalc_of_invalid cfg env st t dt (Or.inl (not_lt.mp hs))]

theorem Double_gt_false_of_le (a b : Double) (h : a.le b = true) : a.gt b = false := by
  cases a <;> cases b <;> simp_all [Double.le, Double.gt]

theorem sample_time_le : (Double.finite (1 / 2)).le start_check_in_s = true := by
  simp [Double.le, start_check_in_s]

/-- C12: a step executed with an empty expected set adds no path to the missing set, for
every message, communication point and prior state; so does the checker itself, and a
missing set that was empty stays empty. -/
theorem DoCalc_empty_expected (cfg : Config) (env : Env) (st : State) (t dt : fmi2Real)
    (hE : st.expected_osi_fields_ = ∅) :
    (DoCalc cfg env st t dt).2.missing_fields_ = st.missing_fields_
      ∧ (∀ d : SensorData, (CheckMovingObjects st d t).missing_fields_ = st.missing_fields_)
      ∧ (st.missing_fields_ = ∅ → (DoCalc cfg env st t dt).2.missing_fields_ = ∅) := by
  have key : (DoCalc cfg env st t dt).2.missing_fields_ = st.missing_fields_ := by
    by_cases hs : 0 < input_size cfg st
    · cases ht : t.gt start_check_in_s
      · exact DoCalc_missing_of_invalid cfg env st t dt (Or.inr ht)
      · rw [DoCalc_missing_of_valid cfg env st t dt hs ht, hE]
        simp
    · exact DoCalc_missing_of_invalid cfg env st t dt (Or.inl (not_lt.mp hs))
  refine ⟨key, ?_, fun hM => by rw [key, hM]⟩
  intro d
  rw [CheckMovingObjects_missing, hE]
  simp

/-- Witness of C12: a valid step on the sample message with nothing expected. -/
theorem DoCalc_empty_expected_witness :
    (DoCalc sample_config (sample_env true sample_message) (sample_state ∅) (Double.finite 1)
      (Double.finite 1)).2.missing_fields_ = (sample_state ∅).missing_fields_ :=
  (DoCalc_empty_expected sample_config (sample_env true sample_message) (sample_state ∅)
    (Double.finite 1) (Double.finite 1) rfl).1

/-- C17: a step returns the status OK for every state, every input (absent, unparsable,
valid, with or without missing required fields), every communication point and step size. -/
theorem DoStep_returns_OK (cfg : Config) (env : Env) (st : State) (t dt : fmi2Real)
    (flag : fmi2Boolean) :
    (DoStep cfg env st t dt flag).1 = fmi2Status.fmi2OK
      ∧ (DoCalc cfg env st t dt).1 = fmi2Status.fmi2OK :=
  ⟨DoCalc_status cfg env st t dt, DoCalc_status cfg env st t dt⟩

/-- C19: when `"moving_object"` is not expected, a step leaves the missing set unchanged for
every message and every communication point, whatever other paths are expected. -/
theorem DoCalc_gated_on_moving_object (cfg : Config) (env : Env) (st : State) (t dt : fmi2Real)
    (hE : "moving_object" ∉ st.expected_osi_fields_) :
    (DoCalc cfg env st t dt).2.missing_fields_ = st.missing_fields_ := by
  by_cases hs : 0 < input_size cfg st
  · cases ht : t.gt start_check_in_s
    · exact DoCalc_missing_of_invalid cfg env st t dt (Or.inr ht)
    · rw [DoCalc_missing_of_valid cfg env st t dt hs ht]
      simp [hE]
  · exact DoCalc_missing_of_invalid cfg env st t dt (Or.inl (not_lt.mp hs))

/-- Witness of C19: every sub-record path but not `"moving_object"` is expected, and the
message lacks a position. -/
theorem DoCalc_gated_on_moving_object_witness :
    (DoCalc sample_config (sample_env true sample_message)
        (sample_state {"moving_object.base", "moving_object.base.position"}) (Double.finite 1)
        (Double.finite 1)).2.missing_fields_
      = (sample_state {"moving_object.base", "moving_object.base.position"}).missing_fields_ :=
  DoCalc_gated_on_moving_object sample_config (sample_env true sample_message)
    (sample_state {"moving_object.base", "moving_object.base.position"}) (Double.finite 1)
    (Double.finite 1) (by simp [sample_state])

/-- C20: a step whose communication point is less than or equal to 0.5 leaves the missing set
unchanged and resets the output size and both output address fields to 0, for every input;
its result is the one of the no-input branch. -/
theorem DoCalc_settling_period (cfg : Config) (env : Env) (st : State) (t dt : fmi2Real)
    (hcfg : cfg.WF) (hst : st.WF cfg) (ht : t.le start_check_in_s = true) :
    (DoCalc cfg env st t dt).2.missing_fields_ = st.missing_fields_
      ∧ (DoCalc cfg env st t dt).2.integer_var cfg.FMI_INTEGER_SENSORDATA_OUT_SIZE_IDX = 0
      ∧ (DoCalc cfg env st t dt).2.integer_var cfg.FMI_INTEGER_SENSORDATA_OUT_BASEHI_IDX = 0
      ∧ (DoCalc cfg env st t dt).2.integer_var cfg.FMI_INTEGER_SENSORDATA_OUT_BASELO_IDX = 0
      ∧ DoCalc cfg env st t dt
          = (fmi2Status.fmi2OK,
              SetFmiCount cfg (SetFmiValid cfg (ResetFmiSensorDataOut cfg st) 0) 0) := by
  have hgt := Double_gt_false_of_le t start_check_in_s ht
  obtain ⟨_, _, _, _, hlo, hhi, hsz, _⟩ := hcfg
  obtain ⟨_, hlen, _⟩ := hst
  obtain ⟨h1, h2, h3⟩ := DoCalc_invalid_outputs cfg env st t dt (Or.inr hgt)
    (by omega) (by omega) (by omega)
  exact ⟨DoCalc_missing_of_invalid cfg env st t dt (Or.inr hgt), h1, h2, h3,
    DoCalc_of_invalid cfg env st t dt (Or.inr hgt)⟩

/-- Witness of C20: a parsable input of five bytes with a missing position at time 0.5. -/
theorem DoCalc_settling_period_witness :
    (DoCalc sample_config (sample_env true sample_message)
        (sample_state {"moving_object", "moving_object.base.position"}) (Double.finite (1 / 2))
        (Double.finite 1)).2.missing_fields_
      = (sample_state {"moving_object", "moving_object.base.position"}).missing_fields_ :=
  (DoCalc_settling_period sample_config (sample_env true sample_message)
    (sample_state {"moving_object", "moving_object.base.position"}) (Double.finite (1 / 2))
    (Double.finite 1) sample_config_WF (sample_state_WF _) sample_time_le).1

theorem missing_field_line_injective : Function.Injective missing_field_line := by
  intro p q h
  have h2 := congrArg String.data h
  simp only [missing_field_line, String.data_append] at h2
  exact String.ext (List.append_cancel_left h2)

theorem missing_field_line_ne_test_failed (p : String) : missing_field_line p ≠ "test failed" := by
  intro h
  have h2 := congrArg String.data h
  simp [missing_field_line, String.data_append] at h2

theorem Terminate_eq (st : State) :
    Terminate st
      = (fmi2Status.fmi2OK, st,
          if st.missing_fields_ = ∅ then
            { cout := (st.missing_fields_.sort (fun a b => a ≤ b)).map missing_field_line,
              system_calls := [] }
          else
            { cout := (st.missing_fields_.sort (fun a b => a ≤ b)).map missing_field_line
                ++ ["test failed"],
              system_calls := [failed_flag_command] }) := by
  have hcmd : ("echo \"failed=" ++ toString 1 ++ "\" >> $GITHUB_OUTPUT") = failed_flag_command := by
    decide
  unfold Terminate DoTerm
  simp only [hcmd, Finset.length_sort, gt_iff_lt, Finset.card_pos]
  by_cases h : st.missing_fields_ = ∅
  · simp [h]
  · simp only [if_neg h, if_pos (Finset.nonempty_iff_ne_empty.mpr h)]
    rfl

/-- C14: `Terminate` returns OK and leaves the state, hence the missing set, unchanged; it
prints exactly one `::error title=MissingField::<path>` line for each element of the missing
set (as many lines as the set has elements, each path once), and it prints `test failed` and
runs the `failed=1` command if and only if the missing set is non-empty. -/
theorem Terminate_reports_missing_fields (st : State) :
    (Terminate st).1 = fmi2Status.fmi2OK
      ∧ (Terminate st).2.1 = st
      ∧ (Terminate st).2.2.cout
          = (st.missing_fields_.sort (fun a b => a ≤ b)).map missing_field_line
              ++ (if st.missing_fields_ = ∅ then [] else ["test failed"])
      ∧ (∀ p, p ∈ st.missing_fields_ →
          (Terminate st).2.2.cout.count (missing_field_line p) = 1)
      ∧ (∀ p, p ∉ st.missing_fields_ →
          (Terminate st).2.2.cout.count (missing_field_line p) = 0)
      ∧ (Terminate st).2.2.cout.length
          = st.missing_fields_.card + (if st.missing_fields_ = ∅ then 0 else 1)
      ∧ ("test failed" ∈ (Terminate st).2.2.cout ↔ st.missing_fields_.Nonempty)
      ∧ ((Terminate st).2.2.system_calls = [failed_flag_command] ↔ st.missing_fields_.Nonempty)
      ∧ ((Terminate st).2.2.system_calls = [] ↔ st.missing_fields_ = ∅) := by
  have hcount : ∀ p, ((st.missing_fields_.sort (fun a b => a ≤ b)).map missing_field_line).count
      (missing_field_line p) = if p ∈ st.missing_fields_ then 1 else 0 := by
    intro p
    rw [List.count_map_of_injective _ _ missing_field_line_injective]
    by_cases hp : p ∈ st.missing_fields_
    · rw [if_pos hp]
      exact List.count_eq_one_of_mem (Finset.sort_nodup _ _) ((Finset.mem_sort _).mpr hp)
    · rw [if_neg hp]
      exact List.count_eq_zero_of_not_mem (fun h => hp ((Finset.mem_sort _).mp h))
  have htail : ∀ p, (["test failed"] : List String).count (missing_field_line p) = 0 := by
    intro p
    exact List.count_eq_zero_of_not_mem (by
      simp only [List.mem_singleton]
      exact missing_field_line_ne_test_failed p)
  have hnot : "test failed" ∉ (st.missing_fields_.sort (fun a b => a ≤ b)).map missing_field_line := by
    intro h
    obtain ⟨p, _, hp⟩ := List.mem_map.mp h
    exact missing_field_line_ne_test_failed p hp
  have hT := Terminate_eq st
  by_cases h : st.missing_fields_ = ∅
  · have hne : ¬ st.missing_fields_.Nonempty := by rw [h]; simp
    rw [if_pos h] at hT
    rw [hT]
    dsimp only
    refine ⟨rfl, rfl, ?_, ?_, ?_, ?_, ?_, ?_, ?_⟩
    · rw [if_pos h, List.append_nil]
    · intro p hp; rw [hcount, if_pos hp]
    · intro p hp; rw [hcount, if_neg hp]
    · rw [if_pos h, List.length_map, Finset.length_sort, Nat.add_zero]
    · exact ⟨fun hm => absurd hm hnot, fun hm => absurd hm hne⟩
    · exact ⟨fun hm => (by cases hm), fun hm => absurd hm hne⟩
    · exact ⟨fun _ => h, fun _ => rfl⟩
  · have hne : st.missing_fields_.Nonempty := Finset.nonempty_iff_ne_empty.mpr h
    rw [if_neg h] at hT
    rw [hT]
    dsimp only
    refine ⟨rfl, rfl, ?_, ?_, ?_, ?_, ?_, ?_, ?_⟩
    · rw [if_neg h]
    · intro p hp; rw [List.count_append, hcount, if_pos hp, htail]
    · intro p hp; rw [List.count_append, hcount, if_neg hp, htail]
    · rw [if_neg h, List.length_append, List.length_map, Finset.length_sort]
      rfl
    · exact ⟨fun _ => hne, fun _ => List.mem_append_right _ (List.mem_singleton_self _)⟩
    · exact ⟨fun _ => hne, fun _ => rfl⟩
    · exact ⟨fun hm => (by cases hm), fun hm => absurd hm h⟩

/-- Witness of C14: a path of a two-element missing set is printed once. -/
theorem Terminate_reports_missing_fields_witness :
    (Terminate sample_state_missing).2.2.cout.count (missing_field_line "moving_object.base") = 1 :=
  (Terminate_reports_missing_fields sample_state_missing).2.2.2.1 "moving_object.base"
    (by simp [sample_state_missing])

/-- C15: `Reset` returns OK, sets every slot of the four scalar arrays to its zero value and
the started flag to false, and changes nothing else: the expected set, the missing set, both
buffer pointers and both buffer contents are the same after `Reset` as before. -/
theorem Reset_effect (st : State) :
    (Reset st).1 = fmi2Status.fmi2OK
      ∧ (Reset st).2
          = { st with
              boolean_vars_ := List.replicate st.boolean_vars_.length fmi2False,
              integer_vars_ := List.replicate st.integer_vars_.length 0,
              real_vars_ := List.replicate st.real_vars_.length (Double.finite 0),
              string_vars_ := List.replicate st.string_vars_.length "",
              simulation_started_ := false }
      ∧ (∀ i, i < st.real_vars_.length → (Reset st).2.real_vars_[i]? = some (Double.finite 0))
      ∧ (∀ i, i < st.integer_vars_.length → (Reset st).2.integer_vars_[i]? = some 0)
      ∧ (∀ i, i < st.boolean_vars_.length → (Reset st).2.boolean_vars_[i]? = some fmi2False)
      ∧ (∀ i, i < st.string_vars_.length → (Reset st).2.string_vars_[i]? = some "")
      ∧ (Reset st).2.simulation_started_ = false
      ∧ (Reset st).2.expected_osi_fields_ = st.expected_osi_fields_
      ∧ (Reset st).2.missing_fields_ = st.missing_fields_
      ∧ (Reset st).2.current_output_buffer_ = st.current_output_buffer_
      ∧ (Reset st).2.last_output_buffer_ = st.last_output_buffer_
      ∧ (∀ s, (Reset st).2.heap s = st.heap s) := by
  refine ⟨rfl, ?_, ?_, ?_, ?_, ?_, rfl, rfl, rfl, rfl, rfl, fun s => by cases s <;> rfl⟩
  · simp only [Reset, DoInit, List.map_const']
  · intro i hi
    simp [Reset, DoInit, List.getElem?_replicate, hi]
  · intro i hi
    simp [Reset, DoInit, List.getElem?_replicate, hi]
  · intro i hi
    simp [Reset, DoInit, List.getElem?_replicate, hi]
  · intro i hi
    simp [Reset, DoInit, List.getElem?_replicate, hi]

/-- Witness of C15: after `Reset` the pending input size of the sample state is zero. -/
theorem Reset_effect_witness :
    (Reset (sample_state {"moving_object"})).2.integer_vars_[2]? = some 0 :=
  (Reset_effect (sample_state {"moving_object"})).2.2.2.1 2 (by decide)

/-- C16 holds for fourteen of the fifteen entry points: state serialization and derivatives
return `fmi2Error`, the status enquiries return `fmi2Discard`. The remaining one,
`fmi2CancelStep`, returns `fmi2OK`, which is neither. -/
theorem unsupported_stub_statuses (c : State) (p q n m : Nat) (bytes : Nat → UInt8)
    (refs1 refs2 : Nat → fmi2ValueReference) (order : Nat → fmi2Integer)
    (reals1 reals2 : Nat → fmi2Real) (kind : fmi2StatusKind) :
    fmi2GetFMUstate c p = fmi2Status.fmi2Error
      ∧ fmi2SetFMUstate c p = fmi2Status.fmi2Error
      ∧ fmi2FreeFMUstate c p = fmi2Status.fmi2Error
      ∧ fmi2SerializedFMUstateSize c p q = fmi2Status.fmi2Error
      ∧ fmi2SerializeFMUstate c p bytes n = fmi2Status.fmi2Error
      ∧ fmi2DeSerializeFMUstate c bytes n p = fmi2Status.fmi2Error
      ∧ fmi2GetDirectionalDerivative c refs1 n refs2 m reals1 reals2 = fmi2Status.fmi2Error
      ∧ fmi2SetRealInputDerivatives c refs1 n order reals1 = fmi2Status.fmi2Error
      ∧ fmi2GetRealOutputDerivatives c refs1 n order reals1 = fmi2Status.fmi2Error
      ∧ fmi2GetStatus c kind p = fmi2Status.fmi2Discard
      ∧ fmi2GetRealStatus c kind p = fmi2Status.fmi2Discard
      ∧ fmi2GetIntegerStatus c kind p = fmi2Status.fmi2Discard
      ∧ fmi2GetBooleanStatus c kind p = fmi2Status.fmi2Discard
      ∧ fmi2GetStringStatus c kind p = fmi2Status.fmi2Discard
      ∧ fmi2CancelStep c = fmi2Status.fmi2OK
      ∧ fmi2CancelStep c ≠ fmi2Status.fmi2Error
      ∧ fmi2CancelStep c ≠ fmi2Status.fmi2Discard :=
  ⟨rfl, rfl, rfl, rfl, rfl, rfl, rfl, rfl, rfl, rfl, rfl, rfl, rfl, rfl, rfl,
    fun h => fmi2Status.noConfusion h, fun h => fmi2Status.noConfusion h⟩

theorem toInt32_of_lt (u : Nat) (h : u < 2 ^ 31) : toInt32 u = (u : Int) := by
  unfold toInt32
  have h1 : u % 2 ^ 32 = u := Nat.mod_eq_of_lt (by omega)
  rw [h1, if_pos h]

theorem SetFmiSensorDataOut_integer_vars (cfg : Config) (env : Env) (st : State)
    (d : SensorData) :
    (SetFmiSensorDataOut cfg env st d).integer_vars_
      = ((st.integer_vars_.set cfg.FMI_INTEGER_SENSORDATA_OUT_BASEHI_IDX
              (EncodePointerToInteger cfg.ptr_width
                (env.data st.current_output_buffer_ (env.SerializeToString d))).1).set
            cfg.FMI_INTEGER_SENSORDATA_OUT_BASELO_IDX
              (EncodePointerToInteger cfg.ptr_width
                (env.data st.current_output_buffer_ (env.SerializeToString d))).2).set
          cfg.FMI_INTEGER_SENSORDATA_OUT_SIZE_IDX
            (toInt32 (env.SerializeToString d).length) := by
  simp only [SetFmiSensorDataOut, set_integer_heap, heap_store_heap_same]
  simp [State.set_integer]

theorem DoCalc_valid_integer_vars (cfg : Config) (env : Env) (st : State) (t dt : fmi2Real)
    (hsize : 0 < input_size cfg st) (ht : t.gt start_check_in_s = true) :
    (DoCalc cfg env st t dt).2.integer_vars_
      = (((st.integer_vars_.set cfg.FMI_INTEGER_SENSORDATA_OUT_BASEHI_IDX
              (EncodePointerToInteger cfg.ptr_width
                (env.data st.current_output_buffer_
                  (env.SerializeToString (parsed_input cfg env st).2))).1).set
            cfg.FMI_INTEGER_SENSORDATA_OUT_BASELO_IDX
              (EncodePointerToInteger cfg.ptr_width
                (env.data st.current_output_buffer_
                  (env.SerializeToString (parsed_input cfg env st).2))).2).set
          cfg.FMI_INTEGER_SENSORDATA_OUT_SIZE_IDX
            (toInt32 (env.SerializeToString (parsed_input cfg env st).2).length)).set
        cfg.FMI_INTEGER_COUNT_IDX (parsed_input cfg env st).2.moving_object_size := by
  obtain ⟨m, hm⟩ := DoCalc_of_valid cfg env st t dt hsize ht
  rw [hm]
  show ((SetFmiSensorDataOut cfg env { st with missing_fields_ := m }
    (parsed_input cfg env st).2).integer_vars_.set _ _) = _
  rw [SetFmiSensorDataOut_integer_vars]

theorem DoCalc_valid_buffers (cfg : Config) (env : Env) (st : State) (t dt : fmi2Real)
    (hsize : 0 < input_size cfg st) (ht : t.gt start_check_in_s = true) :
    (DoCalc cfg env st t dt).2.heap st.current_output_buffer_
        = env.SerializeToString (parsed_input cfg env st).2
      ∧ (DoCalc cfg env st t dt).2.last_output_buffer_ = st.current_output_buffer_
      ∧ (DoCalc cfg env st t dt).2.current_output_buffer_ = st.last_output_buffer_ := by
  obtain ⟨m, hm⟩ := DoCalc_of_valid cfg env st t dt hsize ht
  rw [hm]
  refine ⟨?_, ?_, ?_⟩
  · simp only [SetFmiCount_heap, SetFmiValid_heap]
    exact SetFmiSensorDataOut_heap_current cfg env { st with missing_fields_ := m } _
  · simp [SetFmiCount, SetFmiValid, State.set_integer]
  · simp [SetFmiCount, SetFmiValid, State.set_integer]

/-- C18: after a step with input size > 0 and communication point > 0.5 whose input parses to
`m`, the buffer that was current before the step holds exactly the serialization of `m` and
has become the retained buffer, the output size field is that buffer's length and the output
address fields are the encoding of that buffer's address. The serialization is shorter than
2^31 bytes, the limit of the serialization library. -/
theorem DoCalc_valid_output (cfg : Config) (env : Env) (st : State) (t dt : fmi2Real)
    (m : SensorData) (hcfg : cfg.WF) (hst : st.WF cfg)
    (hsize : 0 < input_size cfg st) (ht : t.gt start_check_in_s = true)
    (hparse : parsed_input cfg env st = (true, m))
    (hlen : (env.SerializeToString m).length < 2 ^ 31) :
    (DoCalc cfg env st t dt).2.heap st.current_output_buffer_ = env.SerializeToString m
      ∧ (DoCalc cfg env st t dt).2.last_output_buffer_ = st.current_output_buffer_
      ∧ (DoCalc cfg env st t dt).2.current_output_buffer_ = st.last_output_buffer_
      ∧ (DoCalc cfg env st t dt).2.integer_var cfg.FMI_INTEGER_SENSORDATA_OUT_SIZE_IDX
          = (((DoCalc cfg env st t dt).2.heap st.current_output_buffer_).length : Int)
      ∧ ((DoCalc cfg env st t dt).2.integer_var cfg.FMI_INTEGER_SENSORDATA_OUT_BASEHI_IDX,
          (DoCalc cfg env st t dt).2.integer_var cfg.FMI_INTEGER_SENSORDATA_OUT_BASELO_IDX)
          = EncodePointerToInteger cfg.ptr_width
              (env.data st.current_output_buffer_
                ((DoCalc cfg env st t dt).2.heap st.current_output_buffer_)) := by
  have hd : (parsed_input cfg env st).2 = m := by rw [hparse]
  obtain ⟨hb1, hb2, hb3⟩ := DoCalc_valid_buffers cfg env st t dt hsize ht
  have hiv := DoCalc_valid_integer_vars cfg env st t dt hsize ht
  rw [hd] at hb1 hiv
  obtain ⟨hnd, _, _, _, hlo, hhi, hsz, _⟩ := hcfg
  obtain ⟨_, hlenI, _⟩ := hst
  simp only [List.nodup_cons, List.mem_cons, List.mem_singleton, not_or, List.not_mem_nil,
    not_false_eq_true, List.nodup_nil, and_true] at hnd
  obtain ⟨_, _, _, ⟨hlh, hls, hlc⟩, ⟨hhs, hhc⟩, hsc⟩ := hnd
  refine ⟨hb1, hb2, hb3, ?_, ?_⟩
  · rw [hb1, State.integer_var, hiv]
    simp only [getD_set_eq, List.length_set]
    rw [if_neg (fun h => hsc h.1.symm), if_pos ⟨trivial, by omega⟩, toInt32_of_lt _ hlen]
  · rw [hb1, State.integer_var, State.integer_var, hiv]
    simp only [getD_set_eq, List.length_set]
    rw [if_neg (fun h => hhc h.1.symm), if_neg (fun h => hhs h.1.symm),
      if_neg (fun h => hlh h.1), if_pos ⟨trivial, by omega⟩,
      if_neg (fun h => hlc h.1.symm), if_neg (fun h => hls h.1.symm), if_pos ⟨trivial, by omega⟩]

/-- Witness of C18: the sample message is published into the first buffer. -/
theorem DoCalc_valid_output_witness :
    (DoCalc sample_config (sample_env true sample_message)
        (sample_state {"moving_object"}) (Double.finite 1) (Double.finite 1)).2.heap
        (sample_state {"moving_object"}).current_output_buffer_
      = (sample_env true sample_message).SerializeToString sample_message :=
  (DoCalc_valid_output sample_config (sample_env true sample_message)
    (sample_state {"moving_object"}) (Double.finite 1) (Double.finite 1) sample_message
    sample_config_WF (sample_state_WF _) (by rw [sample_input_size]; decide) sample_time_gt rfl
    (by decide)).1

@[simp] theorem heap_store_expected (st : State) (s : Slot) (bytes : List UInt8) :
    (st.heap_store s bytes).expected_osi_fields_ = st.expected_osi_fields_ := by
  cases s <;> rfl

theorem SetFmiSensorDataOut_expected (cfg : Config) (env : Env) (st : State) (d : SensorData) :
    (SetFmiSensorDataOut cfg env st d).expected_osi_fields_ = st.expected_osi_fields_ := by
  simp [SetFmiSensorDataOut, State.set_integer]

theorem DoCalc_expected (cfg : Config) (env : Env) (st : State) (t dt : fmi2Real) :
    (DoCalc cfg env st t dt).2.expected_osi_fields_ = st.expected_osi_fields_ := by
  by_cases hs : 0 < input_size cfg st
  · cases ht : t.gt start_check_in_s
    · rw [DoCalc_of_invalid cfg env st t dt (Or.inr ht)]
      rfl
    · obtain ⟨m, hm⟩ := DoCalc_of_valid cfg env st t dt hs ht
      rw [hm]
      show (SetFmiSensorDataOut cfg env { st with missing_fields_ := m }
        (parsed_input cfg env st).2).expected_osi_fields_ = _
      rw [SetFmiSensorDataOut_expected]
  · rw [DoCalc_of_invalid cfg env st t dt (Or.inl (not_lt.mp hs))]
    rfl

theorem foldl_insert_eq (lines : List String) (E : Finset String) :
    lines.foldl (fun acc current_line => insert current_line acc) E = E ∪ lines.toFinset := by
  induction lines generalizing E with
  | nil => simp
  | cons l ls ih =>
    rw [List.foldl_cons, ih, List.toFinset_cons]
    ext x
    simp only [Finset.mem_union, Finset.mem_insert]
    tauto

theorem ExitInitializationMode_expected_superset (cfg : Config) (env : Env) (st : State) :
    st.expected_osi_fields_ ⊆ (ExitInitializationMode cfg env st).2.expected_osi_fields_ := by
  unfold ExitInitializationMode DoExitInitializationMode
  split
  · simp only [foldl_insert_eq]
    exact Finset.subset_union_left
  · exact Finset.Subset.refl _

theorem ExitInitializationMode_of_none (cfg : Config) (env : Env) (st : State)
    (hopen : env.open_file (FmiCheckFile cfg st) = none) :
    ExitInitializationMode cfg env st
      = (fmi2Status.fmi2OK, { st with simulation_started_ := true }) := by
  have h2 : env.open_file (FmiCheckFile cfg { st with simulation_started_ := true }) = none :=
    hopen
  unfold ExitInitializationMode DoExitInitializationMode
  rw [h2]

theorem DoCalc_missing_subset_expected (cfg : Config) (env : Env) (st : State) (t dt : fmi2Real)
    (h : st.missing_fields_ ⊆ st.expected_osi_fields_) :
    (DoCalc cfg env st t dt).2.missing_fields_ ⊆ st.expected_osi_fields_ := by
  by_cases hs : 0 < input_size cfg st
  · cases ht : t.gt start_check_in_s
    · rw [DoCalc_missing_of_invalid cfg env st t dt (Or.inr ht)]
      exact h
    · rw [DoCalc_missing_of_valid cfg env st t dt hs ht]
      split
      · rw [CheckMovingObjects_missing]
        exact Finset.union_subset h (Finset.filter_subset _ _)
      · split
        · rename_i hE
          exact Finset.insert_subset hE h
        · exact h
  · rw [DoCalc_missing_of_invalid cfg env st t dt (Or.inl (not_lt.mp hs))]
    exact h

theorem Op_run_missing_subset_expected (cfg : Config) (op : Op) (st : State)
    (h : st.missing_fields_ ⊆ st.expected_osi_fields_) :
    (op.run cfg st).missing_fields_ ⊆ (op.run cfg st).expected_osi_fields_ := by
  cases op with
  | doStep env t dt flag =>
    show (DoCalc cfg env st t dt).2.missing_fields_ ⊆ (DoCalc cfg env st t dt).2.expected_osi_fields_
    rw [DoCalc_expected]
    exact DoCalc_missing_subset_expected cfg env st t dt h
  | exitInitializationMode env =>
    show (ExitInitializationMode cfg env st).2.missing_fields_
      ⊆ (ExitInitializationMode cfg env st).2.expected_osi_fields_
    rw [ExitInitializationMode_missing]
    exact Finset.Subset.trans h (ExitInitializationMode_expected_superset cfg env st)
  | _ => exact h

theorem run_all_missing_subset_expected (cfg : Config) (ops : List Op) (st : State)
    (h : st.missing_fields_ ⊆ st.expected_osi_fields_) :
    (run_all cfg ops st).missing_fields_ ⊆ (run_all cfg ops st).expected_osi_fields_ := by
  induction ops generalizing st with
  | nil => exact h
  | cons op ops ih => exact ih (op.run cfg st) (Op_run_missing_subset_expected cfg op st h)

theorem sample_fresh_state_constructed : sample_fresh_state.constructed sample_config :=
  ⟨⟨rfl, rfl, rfl, rfl, fun h => Slot.noConfusion h⟩, rfl, rfl, rfl, rfl, rfl⟩

/-- C13: in every state reachable from a freshly constructed component by any sequence of
calls (initialization, steps, `Reset`, `Terminate`, scalar get and set), every path of the
missing set is an element of the expected set. -/
theorem missing_subset_expected (cfg : Config) (st0 : State) (h0 : st0.constructed cfg)
    (ops : List Op) :
    (run_all cfg ops st0).missing_fields_ ⊆ (run_all cfg ops st0).expected_osi_fields_ := by
  obtain ⟨_, _, _, _, hE, hM⟩ := h0
  apply run_all_missing_subset_expected
  rw [hM]
  exact Finset.empty_subset _

/-- Witness of C13: the field list is loaded, then a step runs on an empty message. -/
theorem missing_subset_expected_witness :
    (run_all sample_config
        [Op.exitInitializationMode (sample_env_with_file ["moving_object"] SensorData.empty),
          Op.setInteger (fun _ => 2) 1 (fun _ => 5),
          Op.doStep (sample_env true SensorData.empty) (Double.finite 1) (Double.finite 1) 1]
        sample_fresh_state).missing_fields_
      ⊆ (run_all sample_config
        [Op.exitInitializationMode (sample_env_with_file ["moving_object"] SensorData.empty),
          Op.setInteger (fun _ => 2) 1 (fun _ => 5),
          Op.doStep (sample_env true SensorData.empty) (Double.finite 1) (Double.finite 1) 1]
        sample_fresh_state).expected_osi_fields_ :=
  missing_subset_expected sample_config sample_fresh_state sample_fresh_state_constructed _

theorem sample_loaded_state_expected :
    sample_loaded_state.expected_osi_fields_ = {"moving_object"} := by
  show (ExitInitializationMode sample_config
    (sample_env_with_file ["moving_object"] SensorData.empty)
    sample_fresh_state).2.expected_osi_fields_ = {"moving_object"}
  simp [ExitInitializationMode, DoExitInitializationMode, sample_env_with_file,
    sample_fresh_state]

theorem sample_loaded_state_missing : sample_loaded_state.missing_fields_ = ∅ := by
  show (ExitInitializationMode sample_config
    (sample_env_with_file ["moving_object"] SensorData.empty)
    sample_fresh_state).2.missing_fields_ = ∅
  rw [ExitInitializationMode_missing]
  rfl

theorem sample_loaded_state_input_size : input_size sample_config sample_loaded_state = 5 := by
  show (SetInteger sample_config (ExitInitializationMode sample_config
    (sample_env_with_file ["moving_object"] SensorData.empty) sample_fresh_state).2
    (fun _ => 2) 1 (fun _ => 5)).2.integer_vars_.getD 2 0 = 5
  simp [ExitInitializationMode, DoExitInitializationMode, sample_env_with_file,
    sample_fresh_state, SetInteger, set_loop, sample_config]

/-- C11 (as stated) fails: in a state whose expected set was loaded earlier,
`ExitInitializationMode` with an unavailable source keeps that set, and a later step on a
message without moving objects adds `"moving_object"` to the missing set. -/
theorem ExitInitializationMode_missing_source_counterexample :
    (sample_env true SensorData.empty).open_file (FmiCheckFile sample_config sample_loaded_state)
        = none
      ∧ (ExitInitializationMode sample_config (sample_env true SensorData.empty)
          sample_loaded_state).2.expected_osi_fields_ = {"moving_object"}
      ∧ (ExitInitializationMode sample_config (sample_env true SensorData.empty)
          sample_loaded_state).2.expected_osi_fields_ ≠ ∅
      ∧ (ExitInitializationMode sample_config (sample_env true SensorData.empty)
          sample_loaded_state).2.missing_fields_ = ∅
      ∧ (DoCalc sample_config (sample_env true SensorData.empty)
          (ExitInitializationMode sample_config (sample_env true SensorData.empty)
            sample_loaded_state).2 (Double.finite 1) (Double.finite 1)).2.missing_fields_
          = {"moving_object"} := by
  have hE : (ExitInitializationMode sample_config (sample_env true SensorData.empty)
      sample_loaded_state).2.expected_osi_fields_ = {"moving_object"} := by
    rw [ExitInitializationMode_of_none _ _ _ rfl]
    exact sample_loaded_state_expected
  have hM : (ExitInitializationMode sample_config (sample_env true SensorData.empty)
      sample_loaded_state).2.missing_fields_ = ∅ := by
    rw [ExitInitializationMode_missing]
    exact sample_loaded_state_missing
  refine ⟨rfl, hE, ?_, hM, ?_⟩
  · rw [hE]
    exact Finset.singleton_ne_empty _
  · have hs : 0 < input_size sample_config (ExitInitializationMode sample_config
        (sample_env true SensorData.empty) sample_loaded_state).2 := by
      rw [ExitInitializationMode_of_none _ _ _ rfl]
      show 0 < input_size sample_config sample_loaded_state
      rw [sample_loaded_state_input_size]
      decide
    rw [DoCalc_missing_of_valid _ _ _ _ _ hs sample_time_gt, hE, hM]
    simp [parsed_input, sample_env, SensorData.empty]

theorem Op_run_expected_of_no_load (cfg : Config) (op : Op) (st : State)
    (h : op.loads_fields = false) :
    (op.run cfg st).expected_osi_fields_ = st.expected_osi_fields_ := by
  cases op with
  | doStep env t dt flag => exact DoCalc_expected cfg env st t dt
  | exitInitializationMode env => exact absurd h (by simp [Op.loads_fields])
  | _ => rfl

theorem Op_run_missing_of_empty_expected (cfg : Config) (op : Op) (st : State)
    (hE : st.expected_osi_fields_ = ∅) :
    (op.run cfg st).missing_fields_ = st.missing_fields_ := by
  cases op with
  | doStep env t dt flag =>
    show (DoCalc cfg env st t dt).2.missing_fields_ = st.missing_fields_
    by_cases hs : 0 < input_size cfg st
    · cases ht : t.gt start_check_in_s
      · exact DoCalc_missing_of_invalid cfg env st t dt (Or.inr ht)
      · rw [DoCalc_missing_of_valid cfg env st t dt hs ht, hE]
        simp
    · exact DoCalc_missing_of_invalid cfg env st t dt (Or.inl (not_lt.mp hs))
  | exitInitializationMode env => exact ExitInitializationMode_missing cfg env st
  | _ => rfl

theorem run_all_of_empty_expected (cfg : Config) (ops : List Op) (st : State)
    (hE : st.expected_osi_fields_ = ∅) (hops : ∀ op ∈ ops, op.loads_fields = false) :
    (run_all cfg ops st).expected_osi_fields_ = ∅
      ∧ (run_all cfg ops st).missing_fields_ = st.missing_fields_ := by
  induction ops generalizing st with
  | nil => exact ⟨hE, rfl⟩
  | cons op ops ih =>
    have h1 := Op_run_expected_of_no_load cfg op st (hops op (List.mem_cons_self _ _))
    have h2 := Op_run_missing_of_empty_expected cfg op st hE
    obtain ⟨h3, h4⟩ := ih (op.run cfg st) (by rw [h1, hE])
      (fun o ho => hops o (List.mem_cons_of_mem _ ho))
    exact ⟨h3, by rw [← h2]; exact h4⟩

/-- C11 (amended): when `ExitInitializationMode` is executed while the required-field source
cannot be opened, the call returns OK, marks the run as started and leaves the expected set
as it was; when the expected set was empty before the call (as in a freshly constructed
component) it stays empty, so that no later call which does not load the source adds any
path to the missing set. -/
theorem ExitInitializationMode_missing_source (cfg : Config) (env : Env) (st : State)
    (hopen : env.open_file (FmiCheckFile cfg st) = none) :
    (ExitInitializationMode cfg env st).1 = fmi2Status.fmi2OK
      ∧ (ExitInitializationMode cfg env st).2.simulation_started_ = true
      ∧ (ExitInitializationMode cfg env st).2.expected_osi_fields_ = st.expected_osi_fields_
      ∧ (st.expected_osi_fields_ = ∅ →
          (ExitInitializationMode cfg env st).2.expected_osi_fields_ = ∅
            ∧ ∀ ops : List Op, (∀ op ∈ ops, op.loads_fields = false) →
                (run_all cfg ops (ExitInitializationMode cfg env st).2).missing_fields_
                  = st.missing_fields_) := by
  rw [ExitInitializationMode_of_none cfg env st hopen]
  refine ⟨rfl, rfl, rfl, fun hE => ⟨hE, fun ops hops => ?_⟩⟩
  exact (run_all_of_empty_expected cfg ops { st with simulation_started_ := true } hE hops).2

/-- Witness of C11 (amended): a fresh instance without source, then a valid step on a message
without moving objects. -/
theorem ExitInitializationMode_missing_source_witness :
    (run_all sample_config
        [Op.setInteger (fun _ => 2) 1 (fun _ => 5),
          Op.doStep (sample_env true SensorData.empty) (Double.finite 1) (Double.finite 1) 1]
        (ExitInitializationMode sample_config (sample_env true SensorData.empty)
          sample_fresh_state).2).missing_fields_
      = sample_fresh_state.missing_fields_ :=
  ((ExitInitializationMode_missing_source sample_config (sample_env true SensorData.empty)
    sample_fresh_state rfl).2.2.2 rfl).2
    [Op.setInteger (fun _ => 2) 1 (fun _ => 5),
      Op.doStep (sample_env true SensorData.empty) (Double.finite 1) (Double.finite 1) 1]
    (by
      intro op hop
      simp only [List.mem_cons, List.mem_singleton, List.not_mem_nil, or_false] at hop
      rcases hop with h | h <;> rw [h] <;> rfl)

theorem apply_writes_succ {α : Type} (vr : Nat → fmi2ValueReference) (value : Nat → α)
    (k : Nat) (vars : List α) :
    apply_writes vr value (k + 1) vars = (apply_writes vr value k vars).set (vr k) (value k) := by
  simp [apply_writes, List.range_succ, List.foldl_append]

theorem apply_writes_length {α : Type} (vr : Nat → fmi2ValueReference) (value : Nat → α)
    (k : Nat) (vars : List α) :
    (apply_writes vr value k vars).length = vars.length := by
  induction k with
  | zero => rfl
  | succ k ih => rw [apply_writes_succ, List.length_set, ih]

theorem apply_writes_unchanged {α : Type} (vr : Nat → fmi2ValueReference) (value : Nat → α)
    (k : Nat) (vars : List α) (x : Nat) (h : ∀ j, j < k → vr j ≠ x) :
    (apply_writes vr value k vars)[x]? = vars[x]? := by
  induction k with
  | zero => rfl
  | succ k ih =>
    rw [apply_writes_succ, List.getElem?_set_ne (h k (Nat.lt_succ_self k)),
      ih (fun j hj => h j (Nat.lt_succ_of_lt hj))]

theorem apply_writes_last {α : Type} (vr : Nat → fmi2ValueReference) (value : Nat → α)
    (k : Nat) (vars : List α) (hrange : ∀ j, j < k → vr j < vars.length) (i : Nat) (hi : i < k) :
    ∃ j, j < k ∧ vr j = vr i ∧ (∀ l, j < l → l < k → vr l ≠ vr i)
      ∧ (apply_writes vr value k vars)[vr i]? = some (value j) := by
  induction k with
  | zero => exact absurd hi (Nat.not_lt_zero _)
  | succ k ih =>
    by_cases hk : vr k = vr i
    · refine ⟨k, Nat.lt_succ_self k, hk, fun l h1 h2 => absurd h2 (by omega), ?_⟩
      have hlen : vr k < (apply_writes vr value k vars).length := by
        rw [apply_writes_length]
        exact hrange k (Nat.lt_succ_self k)
      rw [apply_writes_succ, ← hk, List.getElem?_set_self hlen]
    · have hik : i < k := by
        rcases Nat.lt_succ_iff_lt_or_eq.mp hi with h | h
        · exact h
        · exact absurd (by rw [h]) hk
      obtain ⟨j, hj, hji, hlast, hval⟩ := ih (fun j hj => hrange j (Nat.lt_succ_of_lt hj)) hik
      refine ⟨j, Nat.lt_succ_of_lt hj, hji, ?_, ?_⟩
      · intro l h1 h2
        rcases Nat.lt_succ_iff_lt_or_eq.mp h2 with h | h
        · exact hlast l h1 h
        · rw [h]; exact hk
      · rw [apply_writes_succ, List.getElem?_set_ne hk, hval]

theorem set_loop_in_range {α : Type} (capacity : Nat) (vr : Nat → fmi2ValueReference)
    (value : Nat → α) (nvr : Nat) (vars : List α) (hall : ∀ j, j < nvr → vr j < capacity) :
    set_loop capacity vr value nvr 0 vars
      = (fmi2Status.fmi2OK, apply_writes vr value nvr vars) := by
  obtain ⟨k, hk, _, hge, herr, hor, heq⟩ := set_loop_zero_spec capacity vr value nvr vars
  have hkn : k = nvr := by
    by_contra hne
    have hlt : k < nvr := lt_of_le_of_ne hk hne
    exact absurd (hall k hlt) (not_lt.mpr (hge hlt))
  have hstatus : (set_loop capacity vr value nvr 0 vars).1 = fmi2Status.fmi2OK := by
    rcases hor with h | h
    · exact h
    · obtain ⟨j, hj, hcap⟩ := herr.mp h
      exact absurd (hall j hj) (not_lt.mpr hcap)
  rw [hkn] at heq
  exact Prod.ext hstatus heq

/-- The round trip on one array: the setter loop followed by the getter loop. -/
theorem set_get_loop_spec {α : Type} (capacity : Nat) (vr : Nat → fmi2ValueReference)
    (value : Nat → α) (nvr : Nat) (vars : List α) (zero : α) (out : Nat → α)
    (hlen : vars.length = capacity) (hall : ∀ j, j < nvr → vr j < capacity) :
    set_get_spec vr nvr value vars (set_loop capacity vr value nvr 0 vars).2
      (set_loop capacity vr value nvr 0 vars).1
      (get_loop capacity vr (set_loop capacity vr value nvr 0 vars).2 zero nvr 0 out).1
      (get_loop capacity vr (set_loop capacity vr value nvr 0 vars).2 zero nvr 0 out).2 := by
  rw [set_loop_in_range capacity vr value nvr vars hall]
  have hlen2 : (apply_writes vr value nvr vars).length = capacity := by
    rw [apply_writes_length, hlen]
  obtain ⟨hok, hval⟩ := (get_loop_zero_spec capacity vr (apply_writes vr value nvr vars) zero
    nvr out hlen2).2 hall
  have hrange : ∀ j, j < nvr → vr j < vars.length := fun j hj => by
    rw [hlen]; exact hall j hj
  have hlast : ∀ i, i < nvr → ∃ j, j < nvr ∧ vr j = vr i
      ∧ (∀ l, j < l → l < nvr → vr l ≠ vr i)
      ∧ (get_loop capacity vr (apply_writes vr value nvr vars) zero nvr 0 out).2 i
          = value j := by
    intro i hi
    obtain ⟨j, hj, hji, hl, hv⟩ := apply_writes_last vr value nvr vars hrange i hi
    refine ⟨j, hj, hji, hl, ?_⟩
    have h2 := hval i hi
    rw [hv] at h2
    exact (Option.some.inj h2).symm
  refine ⟨rfl, hok, hlast, ?_, fun x hx => apply_writes_unchanged vr value nvr vars x hx⟩
  intro i hi hdistinct
  obtain ⟨j, hj, hji, _, hv⟩ := hlast i hi
  by_cases hjeq : j = i
  · rw [hv, hjeq]
  · exact absurd hji (hdistinct j hj hjeq)

/-- C21: for each kind, after a batch set whose references are all below the capacity, a
batch get of the same references returns OK and yields at each position the value written at
the last position with the same reference (the value of that position itself when the
references are distinct); a slot of that kind whose index does not occur among the references
is unchanged, and the arrays of the other three kinds are unchanged. -/
theorem set_get_round_trip (cfg : Config) (st : State) (hst : st.WF cfg)
    (vr : Nat → fmi2ValueReference) (nvr : Nat) :
    (∀ (value out : Nat → fmi2Real), (∀ j, j < nvr → vr j < cfg.FMI_REAL_VARS) →
        set_get_spec vr nvr value st.real_vars_ (SetReal cfg st vr nvr value).2.real_vars_
          (SetReal cfg st vr nvr value).1
          (GetReal cfg (SetReal cfg st vr nvr value).2 vr nvr out).1
          (GetReal cfg (SetReal cfg st vr nvr value).2 vr nvr out).2.2
        ∧ (SetReal cfg st vr nvr value).2.integer_vars_ = st.integer_vars_
        ∧ (SetReal cfg st vr nvr value).2.boolean_vars_ = st.boolean_vars_
        ∧ (SetReal cfg st vr nvr value).2.string_vars_ = st.string_vars_)
      ∧ (∀ (value out : Nat → fmi2Integer), (∀ j, j < nvr → vr j < cfg.FMI_INTEGER_VARS) →
        set_get_spec vr nvr value st.integer_vars_
          (SetInteger cfg st vr nvr value).2.integer_vars_
          (SetInteger cfg st vr nvr value).1
          (GetInteger cfg (SetInteger cfg st vr nvr value).2 vr nvr out).1
          (GetInteger cfg (SetInteger cfg st vr nvr value).2 vr nvr out).2.2
        ∧ (SetInteger cfg st vr nvr value).2.real_vars_ = st.real_vars_
        ∧ (SetInteger cfg st vr nvr value).2.boolean_vars_ = st.boolean_vars_
        ∧ (SetInteger cfg st vr nvr value).2.string_vars_ = st.string_vars_)
      ∧ (∀ (value out : Nat → fmi2Boolean), (∀ j, j < nvr → vr j < cfg.FMI_BOOLEAN_VARS) →
        set_get_spec vr nvr value st.boolean_vars_
          (SetBoolean cfg st vr nvr value).2.boolean_vars_
          (SetBoolean cfg st vr nvr value).1
          (GetBoolean cfg (SetBoolean cfg st vr nvr value).2 vr nvr out).1
          (GetBoolean cfg (SetBoolean cfg st vr nvr value).2 vr nvr out).2.2
        ∧ (SetBoolean cfg st vr nvr value).2.real_vars_ = st.real_vars_
        ∧ (SetBoolean cfg st vr nvr value).2.integer_vars_ = st.integer_vars_
        ∧ (SetBoolean cfg st vr nvr value).2.string_vars_ = st.string_vars_)
      ∧ (∀ (value out : Nat → String), (∀ j, j < nvr → vr j < cfg.FMI_STRING_VARS) →
        set_get_spec vr nvr value st.string_vars_
          (SetString cfg st vr nvr value).2.string_vars_
          (SetString cfg st vr nvr value).1
          (GetString cfg (SetString cfg st vr nvr value).2 vr nvr out).1
          (GetString cfg (SetString cfg st vr nvr value).2 vr nvr out).2.2
        ∧ (SetString cfg st vr nvr value).2.real_vars_ = st.real_vars_
        ∧ (SetString cfg st vr nvr value).2.integer_vars_ = st.integer_vars_
        ∧ (SetString cfg st vr nvr value).2.boolean_vars_ = st.boolean_vars_) := by
  obtain ⟨hr, hi, hb, hs, _⟩ := hst
  exact ⟨fun value out hall =>
      ⟨set_get_loop_spec _ vr value nvr _ _ out hr hall, rfl, rfl, rfl⟩,
    fun value out hall => ⟨set_get_loop_spec _ vr value nvr _ _ out hi hall, rfl, rfl, rfl⟩,
    fun value out hall => ⟨set_get_loop_spec _ vr value nvr _ _ out hb hall, rfl, rfl, rfl⟩,
    fun value out hall => ⟨set_get_loop_spec _ vr value nvr _ _ out hs hall, rfl, rfl, rfl⟩⟩

theorem sample_wide_state_WF : sample_wide_state.WF sample_wide_config :=
  ⟨rfl, rfl, rfl, rfl, fun h => Slot.noConfusion h⟩

/-- Witness of C21: the references 0, 2, 0 are written with 10, 20, 30; slot 1 is not
written and keeps its value. -/
theorem set_get_round_trip_witness :
    (SetReal sample_wide_config sample_wide_state (fun i => if i = 1 then 2 else 0) 3
        (fun i => Double.finite (10 * (i + 1)))).2.real_vars_[1]?
      = sample_wide_state.real_vars_[1]? :=
  (((set_get_round_trip sample_wide_config sample_wide_state sample_wide_state_WF
    (fun i => if i = 1 then 2 else 0) 3).1 (fun i => Double.finite (10 * (i + 1)))
    (fun _ => Double.nan)
    (by
      intro j _
      show (if j = 1 then 2 else 0) < 3
      split <;> decide)).1).2.2.2.2 1
    (by
      intro j _
      show (if j = 1 then 2 else 0) ≠ 1
      split <;> decide)

theorem toInt32_toUInt32 (i : Int) (hlo : -(2 ^ 31) ≤ i) (hhi : i < 2 ^ 31) :
    toInt32 (toUInt32 i) = i := by
  unfold toInt32 toUInt32
  split <;> omega

theorem toUInt32_lt (i : Int) : toUInt32 i < 2 ^ 32 := by
  unfold toUInt32
  omega

/-- C22: in the 64-bit configuration, for every pair `(hi, lo)` of 32-bit integers, negative
ones included, the decoded address is `(hi mod 2^32) * 2^32 + (lo mod 2^32)`, it is below
2^64, and encoding it returns `(hi, lo)`: the sign of `lo` does not reach the high half. -/
theorem decode_encode_round_trip (hi lo : fmi2Integer)
    (hhi1 : -(2 ^ 31) ≤ hi) (hhi2 : hi < 2 ^ 31) (hlo1 : -(2 ^ 31) ≤ lo) (hlo2 : lo < 2 ^ 31) :
    EncodePointerToInteger PtrWidth.bits64 (DecodeIntegerToPointer PtrWidth.bits64 hi lo)
        = (hi, lo)
      ∧ ((DecodeIntegerToPointer PtrWidth.bits64 hi lo : Nat) : Int)
          = (hi % 2 ^ 32) * 2 ^ 32 + lo % 2 ^ 32
      ∧ DecodeIntegerToPointer PtrWidth.bits64 hi lo < 2 ^ 64 := by
  have h1 := toUInt32_lt hi
  have h2 := toUInt32_lt lo
  refine ⟨?_, ?_, ?_⟩
  · simp only [EncodePointerToInteger, DecodeIntegerToPointer]
    have e1 : (toUInt32 hi * 2 ^ 32 + toUInt32 lo) / 2 ^ 32 = toUInt32 hi := by omega
    have e2 : toInt32 (toUInt32 hi * 2 ^ 32 + toUInt32 lo) = toInt32 (toUInt32 lo) := by
      unfold toInt32
      have : (toUInt32 hi * 2 ^ 32 + toUInt32 lo) % 2 ^ 32 = toUInt32 lo % 2 ^ 32 := by omega
      rw [this]
    rw [e1, e2, toInt32_toUInt32 hi hhi1 hhi2, toInt32_toUInt32 lo hlo1 hlo2]
  · simp only [DecodeIntegerToPointer, toUInt32]
    omega
  · simp only [DecodeIntegerToPointer]
    omega

/-- Witness of C22 at a pair of negative integers. -/
theorem decode_encode_round_trip_witness :
    EncodePointerToInteger PtrWidth.bits64 (DecodeIntegerToPointer PtrWidth.bits64 (-1) (-2))
      = (-1, -2) :=
  (decode_encode_round_trip (-1) (-2) (by decide) (by decide) (by decide) (by decide)).1

end OSIFieldChecker
